import Mathlib

/-!
Verification of the guest authorization core of a multi-tenant WiFi
captive-portal engine (backend services: portal sessions, vouchers,
one-time passcodes, rate limiting, federated-identity callback).

Strings are modelled as lists of character codepoints (ASCII range for
the data handled here); the durable store is modelled as lists of rows,
the ephemeral cache as partial maps with explicit expiry timestamps, and
time is passed explicitly as a natural number of seconds.
-/

namespace Portal

/-- Codepoint model of regex class 0-9a-fA-F used by the normalizer. -/
def isHexChar (c : Nat) : Bool :=
  (48 ≤ c && c ≤ 57) || (97 ≤ c && c ≤ 102) || (65 ≤ c && c ≤ 70)

/-- Codepoint model of str.upper on the ASCII range. -/
def charUpper (c : Nat) : Nat :=
  if 97 ≤ c ∧ c ≤ 122 then c - 32 else c

/-- Codepoint model of str.lower on the ASCII range. -/
def charLower (c : Nat) : Nat :=
  if 65 ≤ c ∧ c ≤ 90 then c + 32 else c

/-- ASCII whitespace stripped by str.strip. -/
def isSpaceChar (c : Nat) : Bool :=
  c = 32 || c = 9 || c = 10 || c = 13 || c = 11 || c = 12

/-- Model of str.strip: drop whitespace at both ends. -/
def pyStrip (s : List Nat) : List Nat :=
  ((s.dropWhile isSpaceChar).reverse.dropWhile isSpaceChar).reverse

/-- Model of str.upper. -/
def pyUpper (s : List Nat) : List Nat := s.map charUpper

/-- Model of str.lower. -/
def pyLower (s : List Nat) : List Nat := s.map charLower

/-- Join consecutive pairs of characters with a colon (codepoint 58),
as the list comprehension plus join in normalize_mac does for its
12-character input. -/
def joinPairs : List Nat → List Nat
  | [] => []
  | [a] => [a]
  | [a, b] => [a, b]
  | a :: b :: c :: rest => a :: b :: 58 :: joinPairs (c :: rest)

/-- Embedding of normalize_mac: strip all non-hex characters, require
exactly 12 hex digits, group into colon-separated pairs, uppercase the
result.  The Python function raises ValueError on failure; here the
failure is the none case. -/
def normalize_mac (raw : List Nat) : Option (List Nat) :=
  if (raw.filter isHexChar).length = 12 then
    some (pyUpper (joinPairs (raw.filter isHexChar)))
  else
    none

/-- Embedding of sanitize_orig_url: a falsy (absent or empty) url maps
to none; otherwise remove every newline and carriage return and truncate
to max_len (2048) characters. -/
def sanitize_orig_url (url : Option (List Nat)) (maxLen : Nat := 2048) :
    Option (List Nat) :=
  match url with
  | none => none
  | some u =>
    if u = [] then none
    else some ((u.filter (fun c => !(c = 10) && !(c = 13))).take maxLen)

/-- Characters of a canonical normalizer output: uppercase hex digit or
colon. -/
def isUpperHexOrColon (c : Nat) : Bool :=
  (48 ≤ c && c ≤ 57) || (65 ≤ c && c ≤ 70) || (c = 58)

theorem isHexChar_charUpper {c : Nat} (h : isHexChar c = true) :
    isHexChar (charUpper c) = true := by
  simp only [isHexChar, Bool.or_eq_true, Bool.and_eq_true,
    decide_eq_true_eq] at h ⊢
  simp only [charUpper]
  split <;> omega

theorem isUpperHexOrColon_charUpper {c : Nat} (h : isHexChar c = true) :
    isUpperHexOrColon (charUpper c) = true := by
  simp only [isHexChar, isUpperHexOrColon, Bool.or_eq_true, Bool.and_eq_true,
    decide_eq_true_eq] at h ⊢
  simp only [charUpper]
  split <;> omega

theorem charUpper_idem (c : Nat) : charUpper (charUpper c) = charUpper c := by
  simp only [charUpper]
  by_cases h : 97 ≤ c ∧ c ≤ 122
  · rw [if_pos h, if_neg (by omega)]
  · rw [if_neg h, if_neg h]

theorem charUpper_colon : charUpper 58 = 58 := by decide

theorem pyUpper_idem (s : List Nat) : pyUpper (pyUpper s) = pyUpper s := by
  simp [pyUpper, List.map_map, Function.comp, charUpper_idem]

/-- Filtering the uppercased colon-joined pairs for hex characters
recovers the uppercased digits, provided all the joined characters are
hex. -/
theorem filter_pyUpper_joinPairs (l : List Nat)
    (h : ∀ c ∈ l, isHexChar c = true) :
    (pyUpper (joinPairs l)).filter isHexChar = pyUpper l := by
  induction l using joinPairs.induct with
  | case1 => simp [joinPairs, pyUpper]
  | case2 a =>
    have := h a (by simp)
    simp [joinPairs, pyUpper, isHexChar_charUpper this]
  | case3 a b =>
    have ha := h a (by simp)
    have hb := h b (by simp)
    simp [joinPairs, pyUpper, isHexChar_charUpper ha, isHexChar_charUpper hb]
  | case4 a b c rest ih =>
    have ha := h a (by simp)
    have hb := h b (by simp)
    have hrest : ∀ x ∈ c :: rest, isHexChar x = true := by
      intro x hx
      exact h x (List.mem_cons_of_mem _ (List.mem_cons_of_mem _ hx))
    have hcolon : isHexChar 58 = false := by decide
    have ih2 := ih hrest
    simp only [pyUpper, List.map_cons] at ih2
    simp [joinPairs, pyUpper, isHexChar_charUpper ha, isHexChar_charUpper hb,
      charUpper_colon, hcolon, ih2]

/-- joinPairs commutes with uppercasing because colons are fixed points
of charUpper. -/
theorem joinPairs_pyUpper (l : List Nat) :
    joinPairs (pyUpper l) = pyUpper (joinPairs l) := by
  induction l using joinPairs.induct with
  | case1 => simp [joinPairs, pyUpper]
  | case2 a => simp [joinPairs, pyUpper]
  | case3 a b => simp [joinPairs, pyUpper]
  | case4 a b c rest ih =>
    simp only [pyUpper, List.map_cons] at ih ⊢
    simp [joinPairs, charUpper_colon, ih]

/-- Every character of a colon-join is a character of the joined list or
a colon. -/
theorem mem_joinPairs {l : List Nat} {c : Nat} (h : c ∈ joinPairs l) :
    c ∈ l ∨ c = 58 := by
  induction l using joinPairs.induct with
  | case1 => simp [joinPairs] at h
  | case2 a => simp [joinPairs] at h; simp [h]
  | case3 a b => simp [joinPairs] at h; rcases h with h | h <;> simp [h]
  | case4 a b d rest ih =>
    simp only [joinPairs, List.mem_cons] at h
    rcases h with h | h | h | h
    · simp [h]
    · simp [h]
    · simp [h]
    · rcases ih h with h2 | h2
      · simp only [List.mem_cons] at h2 ⊢
        tauto
      · exact Or.inr h2

/-- The normalizer is idempotent: its output normalizes to itself. -/
theorem normalize_mac_idem {s out : List Nat}
    (h : normalize_mac s = some out) : normalize_mac out = some out := by
  simp only [normalize_mac] at h ⊢
  by_cases hl : (s.filter isHexChar).length = 12
  · rw [if_pos hl] at h
    have hout : out = pyUpper (joinPairs (s.filter isHexChar)) :=
      (Option.some.injEq _ _ ▸ h).symm
    have hhex : ∀ c ∈ s.filter isHexChar, isHexChar c = true := by
      intro c hc
      exact (List.mem_filter.mp hc).2
    have hfilter : out.filter isHexChar = pyUpper (s.filter isHexChar) := by
      rw [hout]
      exact filter_pyUpper_joinPairs _ hhex
    have hlen : (out.filter isHexChar).length = 12 := by
      rw [hfilter]
      simpa [pyUpper] using hl
    rw [if_pos hlen, hfilter, joinPairs_pyUpper, pyUpper_idem, ← hout]
  · rw [if_neg hl] at h
    cases h

/-- Characters of the normalizer output are uppercase hex digits or
colons. -/
theorem normalize_mac_canonical {s out : List Nat}
    (h : normalize_mac s = some out) :
    ∀ c ∈ out, isUpperHexOrColon c = true := by
  simp only [normalize_mac] at h
  by_cases hl : (s.filter isHexChar).length = 12
  · rw [if_pos hl] at h
    have hout : out = pyUpper (joinPairs (s.filter isHexChar)) :=
      (Option.some.injEq _ _ ▸ h).symm
    intro c hc
    rw [hout] at hc
    simp only [pyUpper, List.mem_map] at hc
    obtain ⟨d, hd, hdc⟩ := hc
    rcases mem_joinPairs hd with hmem | hcolon
    · have : isHexChar d = true := (List.mem_filter.mp hmem).2
      rw [← hdc]
      exact isUpperHexOrColon_charUpper this
    · rw [← hdc, hcolon, charUpper_colon]
      decide
  · rw [if_neg hl] at h
    cases h

/-- Example inputs from the spec: aa-bb-cc-dd-ee-ff and
AA:BB:CC:DD:EE:FF as codepoint lists. -/
def macDashedEx : List Nat :=
  [97, 97, 45, 98, 98, 45, 99, 99, 45, 100, 100, 45, 101, 101, 45, 102, 102]

/-- AA:BB:CC:DD:EE:FF as a codepoint list, the canonical output. -/
def macColonEx : List Nat :=
  [65, 65, 58, 66, 66, 58, 67, 67, 58, 68, 68, 58, 69, 69, 58, 70, 70]

/-- C3: the device-address normalizer is idempotent and
separator-insensitive: if stripping non-hex characters leaves exactly 12
hex digits the result is the canonical uppercase colon-separated form
(so the dashed lowercase and colon uppercase spellings of the same
address both map to the canonical form, and normalizing a normalizer
output returns it unchanged), and any input without exactly 12 hex
digits fails with the invalid-address error (modelled as none). -/
theorem claim_C3 :
    (normalize_mac macDashedEx = some macColonEx ∧
      normalize_mac macColonEx = some macColonEx) ∧
    (∀ s out, normalize_mac s = some out → normalize_mac out = some out) ∧
    (∀ s, (s.filter isHexChar).length ≠ 12 → normalize_mac s = none) ∧
    (∀ s out, normalize_mac s = some out →
      ∀ c ∈ out, isUpperHexOrColon c = true) := by
  refine ⟨⟨by decide, by decide⟩, ?_, ?_, ?_⟩
  · intro s out h
    exact normalize_mac_idem h
  · intro s hs
    simp [normalize_mac, hs]
  · intro s out h
    exact normalize_mac_canonical h

/-- Witness for C3 at concrete inputs: the canonical example normalizes
to itself and a single-character input is rejected. -/
theorem claim_C3_witness :
    normalize_mac macColonEx = some macColonEx ∧
      normalize_mac [97] = none :=
  ⟨claim_C3.2.1 macDashedEx macColonEx claim_C3.1.1,
    claim_C3.2.2.1 [97] (by decide)⟩

/-- ASCII control character (codepoints below 32 and 127). -/
def isCtrlChar (c : Nat) : Bool := c < 32 || c = 127

/-- C9 counterexample: the URL sanitizer keeps a horizontal tab
(codepoint 9), a control character, so the stored URL can contain
control characters. -/
theorem claim_C9_counterexample :
    sanitize_orig_url (some [104, 9, 105]) = some [104, 9, 105] ∧
      9 ∈ [104, 9, 105] ∧ isCtrlChar 9 = true := by
  refine ⟨by decide, by decide, by decide⟩

/-- C9 (amended): for every original-URL input, the sanitized URL the
session stores contains no newline or carriage-return characters and is
at most 2048 characters long; other control characters are not
stripped. -/
theorem claim_C9 :
    ∀ url out, sanitize_orig_url url = some out →
      out.length ≤ 2048 ∧ ∀ c ∈ out, c ≠ 10 ∧ c ≠ 13 := by
  intro url out h
  match url with
  | none => cases h
  | some u =>
    simp only [sanitize_orig_url] at h
    by_cases hu : u = []
    · rw [if_pos hu] at h
      cases h
    · rw [if_neg hu] at h
      have hout : out = (u.filter (fun c => !(c = 10) && !(c = 13))).take 2048 :=
        (Option.some.injEq _ _ ▸ h).symm

      constructor
      · rw [hout, List.length_take]
        exact min_le_left _ _
      · intro c hc
        rw [hout] at hc
        have hmem := List.mem_of_mem_take hc
        have := (List.mem_filter.mp hmem).2
        simp only [Bool.and_eq_true, Bool.not_eq_true', decide_eq_false_iff_not] at this
        exact this

/-- Witness for C9 at a concrete input. -/
theorem claim_C9_witness :
    ([104, 9, 105] : List Nat).length ≤ 2048 ∧
      ∀ c ∈ ([104, 9, 105] : List Nat), c ≠ 10 ∧ c ≠ 13 :=
  claim_C9 (some [104, 9, 105]) [104, 9, 105] (by decide)

/-! ## State model: durable rows, ephemeral cache with expiry -/

/-- Point update of a partial map. -/
def upd {α β : Type} [DecidableEq α] (f : α → Option β) (k : α) (v : β) :
    α → Option β :=
  fun x => if x = k then some v else f x

/-- Point deletion from a partial map. -/
def del {α β : Type} [DecidableEq α] (f : α → Option β) (k : α) :
    α → Option β :=
  fun x => if x = k then none else f x

@[simp] theorem upd_same {α β : Type} [DecidableEq α]
    (f : α → Option β) (k : α) (v : β) : upd f k v k = some v := by
  simp [upd]

@[simp] theorem upd_other {α β : Type} [DecidableEq α]
    (f : α → Option β) (k k' : α) (v : β) (h : k' ≠ k) :
    upd f k v k' = f k' := by
  simp [upd, h]

@[simp] theorem del_same {α β : Type} [DecidableEq α]
    (f : α → Option β) (k : α) : del f k k = none := by
  simp [del]

@[simp] theorem del_other {α β : Type} [DecidableEq α]
    (f : α → Option β) (k k' : α) (h : k' ≠ k) : del f k k' = f k' := by
  simp [del, h]

/-- Keyed-hash primitives (HMAC over the server secret and sha256),
modelled as opaque total functions supplied by the environment. -/
structure Crypto where
  hmacHash : List Nat → List Nat
  sha256 : List Nat → List Nat

/-- Portal-session lifecycle states. -/
inductive PsStatus where
  | STARTED
  | AUTHED
  | AUTHORIZED
  | FAILED
  | EXPIRED
deriving DecidableEq

structure TenantRow where
  id : Nat
  slug : String
deriving DecidableEq

structure SiteRow where
  id : Nat
  tenantId : Nat
  slug : String
  enabled : Bool
  successUrl : Option (List Nat)
  defaultTimeLimitMinutes : Nat
  defaultDataLimitMb : Option Nat
  defaultRxKbps : Option Nat
  defaultTxKbps : Option Nat
deriving DecidableEq

/-- Durable portal-session row. -/
structure PsRow where
  id : Nat
  tenantId : Nat
  siteId : Nat
  clientMac : List Nat
  apMac : Option (List Nat)
  ssid : Option (List Nat)
  origUrl : Option (List Nat)
  ip : Option (List Nat)
  userAgent : Option (List Nat)
  status : PsStatus
  createdAt : Nat
deriving DecidableEq

/-- The cached session handle (PortalSessionData in the source). -/
structure PortalSessionData where
  portalSessionId : Nat
  clientMac : List Nat
  apMac : Option (List Nat)
  ssid : Option (List Nat)
  origUrl : Option (List Nat)
  createdAt : Nat
  status : PsStatus
deriving DecidableEq

structure VoucherRow where
  id : Nat
  batchId : Nat
  code : List Nat
  uses : Nat
  disabled : Bool
deriving DecidableEq

structure VoucherBatchRow where
  id : Nat
  siteId : Nat
  expiresAt : Option Nat
  maxUsesPerCode : Nat
deriving DecidableEq

structure RedemptionRow where
  tenantId : Nat
  siteId : Nat
  voucherId : Nat
  portalSessionId : Option Nat
  clientMac : List Nat
deriving DecidableEq

structure GuestIdentityRow where
  id : Nat
  tenantId : Nat
  email : Option (List Nat)
  oidcSub : Option (List Nat)
  displayName : Option (List Nat)
deriving DecidableEq

/-- Append-only audit row; method and result and reason are the
string codes of the source enums. -/
structure AuthEventRow where
  tenantId : Nat
  siteId : Nat
  portalSessionId : Option Nat
  guestIdentityId : Option Nat
  method : String
  result : String
  reason : Option String
  unifiClientId : Option (List Nat)
deriving DecidableEq

structure SiteOidcRow where
  siteId : Nat
  providerId : Nat
  enabled : Bool
  allowedDomains : Option (List Nat)
deriving DecidableEq

/-- The durable store. -/
structure Db where
  tenants : List TenantRow
  sites : List SiteRow
  portalSessions : List PsRow
  nextPsId : Nat
  authEvents : List AuthEventRow
  guestIdentities : List GuestIdentityRow
  nextIdentityId : Nat
  vouchers : List VoucherRow
  voucherBatches : List VoucherBatchRow
  redemptions : List RedemptionRow
  siteOidc : List SiteOidcRow
  oidcProviders : List Nat

/-- Stored OTP challenge payload. -/
structure OtpChallenge where
  codeHash : List Nat
  attempts : Nat
  createdAt : Nat
deriving DecidableEq

/-- OIDC state stored at flow start. -/
structure OidcStateData where
  state : List Nat
  nonce : List Nat
  codeVerifier : List Nat
  providerId : Nat
deriving DecidableEq

/-- Rate-limit scopes, mirroring the limit_key_ip / limit_key_mac key
strings structurally. -/
inductive ScopeKey where
  | ipScope (route : String) (ip : List Nat)
  | macScope (route : String) (siteId : Nat) (mac : List Nat)
deriving DecidableEq

/-- The fast cache.  Each namespace of the single redis keyspace is one
field; values carry their absolute expiry timestamp (a setex key is
alive while now is strictly before it); rate-limit counters may lack an
expiry until the first-increment expire call lands. -/
structure RedisState where
  portalCache : Nat × List Nat → Option (PortalSessionData × Nat)
  otpStore : Nat × List Nat × List Nat → Option (OtpChallenge × Nat)
  rlStore : ScopeKey × Nat → Option (Nat × Option Nat)
  oidcStore : Nat → Option (OidcStateData × Nat)

/-! ## Service embeddings -/

def PORTAL_SESSION_TTL_SECONDS : Nat := 1800

def OTP_TTL_SECONDS : Nat := 600

def OTP_MAX_ATTEMPTS : Nat := 5

/-- Embedding of get_session: a cache read honouring expiry (the
deserialize-corruption branch is not modelled; cached values are
structured). -/
def get_session (r : RedisState) (now : Nat) (siteId : Nat)
    (clientMac : List Nat) : Option PortalSessionData :=
  match r.portalCache (siteId, clientMac) with
  | some (d, exp) => if now < exp then some d else none
  | none => none

/-- Normalizing an optional (possibly falsy) access-point address. -/
def normalizeOptMac : Option (List Nat) → Option (Option (List Nat))
  | none => some none
  | some a => (normalize_mac a).map some

/-- Embedding of create_or_reuse_session.  none models the ValueError
raised when an address fails to normalize. -/
def create_or_reuse_session (db : Db) (r : RedisState) (now : Nat)
    (tenantId : Nat) (site : SiteRow) (clientMac : List Nat)
    (apMac : Option (List Nat)) (ssid : Option (List Nat))
    (origUrl : Option (List Nat)) (ip : Option (List Nat))
    (userAgent : Option (List Nat)) :
    Option (Db × RedisState × PortalSessionData) :=
  (normalize_mac clientMac).bind fun nc =>
  (normalizeOptMac apMac).bind fun nap =>
  let su := sanitize_orig_url origUrl
  let createNew : Db × RedisState × PortalSessionData :=
    let row : PsRow :=
      { id := db.nextPsId, tenantId, siteId := site.id, clientMac := nc,
        apMac := nap, ssid, origUrl := su, ip, userAgent,
        status := .STARTED, createdAt := now }
    let d : PortalSessionData :=
      { portalSessionId := row.id, clientMac := nc, apMac := nap, ssid,
        origUrl := su, createdAt := now, status := .STARTED }
    let newCache :=
      upd r.portalCache (site.id, nc) (d, now + PORTAL_SESSION_TTL_SECONDS)
    let db2 :=
      { db with portalSessions := db.portalSessions ++ [row], nextPsId := db.nextPsId + 1 }
    let r2 := { r with portalCache := newCache }
    (db2, r2, d)
  match get_session r now site.id nc with
  | some existing =>
    if db.portalSessions.any (fun p => p.id == existing.portalSessionId) then
      some (db, r, existing)
    else
      some createNew
  | none => some createNew

/-- Embedding of set_status: refresh the cache entry when present, then
update the durable row selected by (site, normalized address) when it
exists. -/
def set_status (db : Db) (r : RedisState) (now : Nat) (siteId : Nat)
    (clientMac : List Nat) (status : PsStatus) : Option (Db × RedisState) :=
  (normalize_mac clientMac).map fun nc =>
  let r2 := match get_session r now siteId nc with
    | some existing =>
      let refreshed :=
        upd r.portalCache (siteId, nc)
          ({ existing with status := status }, now + PORTAL_SESSION_TTL_SECONDS)
      { r with portalCache := refreshed }
    | none => r
  let db2 := match db.portalSessions.find?
      (fun p => p.siteId == siteId && p.clientMac == nc) with
    | some p0 =>
      let newRows :=
        db.portalSessions.map
          (fun p => if p.id = p0.id then { p with status := status } else p)
      { db with portalSessions := newRows }
    | none => db
  (db2, r2)

/-- Embedding of otp_key: site id, normalized address, hash of the
lowercased trimmed email. -/
def otp_key (crypto : Crypto) (siteId : Nat) (clientMac : List Nat)
    (email : List Nat) : Option (Nat × List Nat × List Nat) :=
  (normalize_mac clientMac).map fun m =>
    (siteId, m, crypto.sha256 (pyLower (pyStrip email)))

/-- Embedding of start_challenge: randomness is externalized, the fresh
plaintext code is the argument; stores its keyed hash with a zeroed
attempt counter under a 10-minute expiry. -/
def start_challenge (crypto : Crypto) (r : RedisState) (now : Nat)
    (siteId : Nat) (clientMac : List Nat) (email : List Nat)
    (code : List Nat) : Option RedisState :=
  (otp_key crypto siteId clientMac email).map fun key =>
    let payload : OtpChallenge :=
      { codeHash := crypto.hmacHash code, attempts := 0, createdAt := now }
    { r with otpStore := upd r.otpStore key (payload, now + OTP_TTL_SECONDS) }

/-- Cache read of a challenge honouring expiry (get_challenge without
the corrupt-payload branch). -/
def get_challenge (r : RedisState) (now : Nat)
    (key : Nat × List Nat × List Nat) : Option OtpChallenge :=
  match r.otpStore key with
  | some (c, exp) => if now < exp then some c else none
  | none => none

/-- Embedding of verify_code, returning the updated store together with
the (ok, reason) pair of the source. -/
def verify_code (crypto : Crypto) (r : RedisState) (now : Nat)
    (siteId : Nat) (clientMac : List Nat) (email : List Nat)
    (code : List Nat) : Option (RedisState × Bool × Option String) :=
  (otp_key crypto siteId clientMac email).map fun key =>
    match get_challenge r now key with
    | none => (r, false, some "OTP_EXPIRED")
    | some ch =>
      if OTP_MAX_ATTEMPTS ≤ ch.attempts then
        ({ r with otpStore := del r.otpStore key }, false, some "OTP_LOCKED")
      else if crypto.hmacHash code ≠ ch.codeHash then
        let attempts := ch.attempts + 1
        let payload : OtpChallenge :=
          { codeHash := ch.codeHash, attempts := attempts, createdAt := ch.createdAt }
        let r2 := { r with otpStore := upd r.otpStore key (payload, now + OTP_TTL_SECONDS) }
        if OTP_MAX_ATTEMPTS ≤ attempts then
          ({ r2 with otpStore := del r2.otpStore key }, false, some "OTP_LOCKED")
        else
          (r2, false, some "OTP_INVALID")
      else
        ({ r with otpStore := del r.otpStore key }, true, none)

/-- Embedding of limit_key_ip. -/
def limit_key_ip (ip : List Nat) (route : String) : ScopeKey :=
  .ipScope route ip

/-- Embedding of limit_key_mac (normalizes the address first). -/
def limit_key_mac (siteId : Nat) (clientMac : List Nat) (route : String) :
    Option ScopeKey :=
  (normalize_mac clientMac).map (.macScope route siteId)

/-- Redis INCR on a counter key: an expired or absent key restarts at 1
with no expiry; a live key increments in place. -/
def redisIncr (r : RedisState) (now : Nat) (k : ScopeKey × Nat) :
    RedisState × Nat :=
  match r.rlStore k with
  | some (count, exp) =>
    match exp with
    | some e =>
      if e ≤ now then ({ r with rlStore := upd r.rlStore k (1, none) }, 1)
      else ({ r with rlStore := upd r.rlStore k (count + 1, exp) }, count + 1)
    | none => ({ r with rlStore := upd r.rlStore k (count + 1, none) }, count + 1)
  | none => ({ r with rlStore := upd r.rlStore k (1, none) }, 1)

/-- Redis EXPIRE: sets the expiry of a live key; no-op on an absent
key. -/
def setExpire (f : ScopeKey × Nat → Option (Nat × Option Nat))
    (k : ScopeKey × Nat) (e : Nat) : ScopeKey × Nat → Option (Nat × Option Nat) :=
  match f k with
  | some (c, _) => upd f k (c, some e)
  | none => f

/-- Embedding of enforce_rate_limit: fixed-window counter increment, an
expiry of window+1 seconds on the first increment, HTTP 429 once the
count exceeds the limit. -/
def enforce_rate_limit (r : RedisState) (now : Nat) (scopeKey : ScopeKey)
    (limit : Nat) (windowSeconds : Nat) :
    RedisState × Option (Nat × String) :=
  let window := now / windowSeconds
  let key := (scopeKey, window)
  let step := redisIncr r now key
  let count := step.2
  let r2 := if count = 1 then
      { step.1 with rlStore := setExpire step.1.rlStore key (now + windowSeconds + 1) }
    else step.1
  if limit < count then (r2, some (429, "RATE_LIMITED")) else (r2, none)

/-- Voucher code normalization: uppercase-trimmed. -/
def normalizeCode (code : List Nat) : List Nat := pyUpper (pyStrip code)

/-- First voucher row with the given code joined to a batch of the given
site. -/
def findVoucherJoin (db : Db) (siteId : Nat) (code : List Nat) :
    Option (VoucherRow × VoucherBatchRow) :=
  db.vouchers.findSome? fun v =>
    if v.code = code then
      (db.voucherBatches.find?
        (fun b => b.id == v.batchId && b.siteId == siteId)).map (fun b => (v, b))
    else none

/-- A batch with an expiry at or before now is expired. -/
def voucherExpired (b : VoucherBatchRow) (now : Nat) : Bool :=
  match b.expiresAt with
  | some t => t ≤ now
  | none => false

/-- Embedding of redeem_voucher: the locked check-and-increment
transaction.  A raised VoucherError aborts the transaction, so the error
branch carries no state; INVALID_MAC models the ValueError from
normalize_mac. -/
def redeem_voucher (db : Db) (now : Nat) (siteId : Nat) (tenantId : Nat)
    (portalSessionId : Option Nat) (code : List Nat) (clientMac : List Nat) :
    Except String (Db × RedemptionRow) :=
  match normalize_mac clientMac with
  | none => .error "INVALID_MAC"
  | some m =>
    match findVoucherJoin db siteId (normalizeCode code) with
    | none => .error "VOUCHER_NOT_FOUND"
    | some (v, b) =>
      if v.disabled then .error "VOUCHER_DISABLED"
      else if voucherExpired b now then .error "VOUCHER_EXPIRED"
      else if b.maxUsesPerCode ≤ v.uses then .error "VOUCHER_EXHAUSTED"
      else
        let red : RedemptionRow :=
          { tenantId, siteId, voucherId := v.id, portalSessionId,
            clientMac := m }
        let db2 := { db with
          vouchers := db.vouchers.map fun w =>
            if w.id = v.id then { w with uses := w.uses + 1 } else w,
          redemptions := db.redemptions ++ [red] }
        .ok (db2, red)

/-- redeem_voucher as a state transformer: the rolled-back transaction
leaves the durable store unchanged on failure. -/
def redeem_voucher_run (db : Db) (now : Nat) (siteId : Nat)
    (tenantId : Nat) (portalSessionId : Option Nat) (code : List Nat)
    (clientMac : List Nat) : Db × Except String RedemptionRow :=
  match redeem_voucher db now siteId tenantId portalSessionId code clientMac with
  | .error e => (db, .error e)
  | .ok (db2, red) => (db2, .ok red)

/-! ## Rate limiter: claim C7 -/

/-- The incremented counter value is at least 1. -/
theorem redisIncr_pos (r : RedisState) (now : Nat) (k : ScopeKey × Nat) :
    1 ≤ (redisIncr r now k).2 := by
  simp only [redisIncr]
  rcases hr : r.rlStore k with _ | ⟨c, e⟩
  · simp
  · rcases e with _ | e
    · simp
    · by_cases he : e ≤ now
      · simp [he]
      · simp [he]

/-- After the increment, the key holds the incremented count. -/
theorem redisIncr_store (r : RedisState) (now : Nat) (k : ScopeKey × Nat) :
    ∃ e, (redisIncr r now k).1.rlStore k = some ((redisIncr r now k).2, e) := by
  simp only [redisIncr]
  rcases hr : r.rlStore k with _ | ⟨c, e⟩
  · exact ⟨none, by simp⟩
  · rcases e with _ | e
    · exact ⟨none, by simp⟩
    · by_cases he : e ≤ now
      · exact ⟨none, by simp [he]⟩
      · exact ⟨some e, by simp [he]⟩

/-- C7: enforce_rate_limit increments the per-window counter, sets an
expiry of window+1 seconds when the increment is the first of the
window, and fails with the 429 rate-limited error exactly when the
incremented count exceeds the limit; in particular a limit of 0 rejects
the very first request of a window for that scope. -/
theorem claim_C7 :
    ∀ (r : RedisState) (now : Nat) (scopeKey : ScopeKey)
      (limit windowSeconds : Nat),
    ((enforce_rate_limit r now scopeKey limit windowSeconds).2 =
        some (429, "RATE_LIMITED") ↔
      limit < (redisIncr r now (scopeKey, now / windowSeconds)).2) ∧
    ((redisIncr r now (scopeKey, now / windowSeconds)).2 = 1 →
      (enforce_rate_limit r now scopeKey limit windowSeconds).1.rlStore
          (scopeKey, now / windowSeconds) =
        some (1, some (now + windowSeconds + 1))) ∧
    (limit = 0 →
      (enforce_rate_limit r now scopeKey limit windowSeconds).2 =
        some (429, "RATE_LIMITED")) := by
  intro r now scopeKey limit windowSeconds
  refine ⟨?_, ?_, ?_⟩
  · simp only [enforce_rate_limit]
    split
    · simp_all
    · simp_all
  · intro h1
    simp only [enforce_rate_limit, h1, if_pos rfl]
    obtain ⟨e, hstore⟩ := redisIncr_store r now (scopeKey, now / windowSeconds)
    rw [h1] at hstore
    split
    · rw [setExpire, hstore]
      simp
    · rw [setExpire, hstore]
      simp
  · intro h0
    subst h0
    have hpos := redisIncr_pos r now (scopeKey, now / windowSeconds)
    simp only [enforce_rate_limit]
    split
    · rfl
    · rename_i h
      exact (h hpos).elim

/-! ## Voucher ledger: claim C1 -/

/-- C1: redeem_voucher checks its failure conditions in a fixed order
and raises the first that applies (not-found, then disabled, then batch
expired, then exhausted); otherwise it increments the matched voucher's
use count by exactly 1 and appends exactly one redemption row linking
voucher, portal session and normalized device address; every failure
leaves the use counts and redemption rows unchanged (the transaction
rolls back). -/
theorem claim_C1 :
    ∀ (db : Db) (now siteId tenantId : Nat) (psid : Option Nat)
      (code clientMac m : List Nat),
    normalize_mac clientMac = some m →
    ((redeem_voucher_run db now siteId tenantId psid code clientMac).2 =
        .error "VOUCHER_NOT_FOUND" ↔
      findVoucherJoin db siteId (normalizeCode code) = none) ∧
    ((redeem_voucher_run db now siteId tenantId psid code clientMac).2 =
        .error "VOUCHER_DISABLED" ↔
      ∃ v b, findVoucherJoin db siteId (normalizeCode code) = some (v, b) ∧
        v.disabled = true) ∧
    ((redeem_voucher_run db now siteId tenantId psid code clientMac).2 =
        .error "VOUCHER_EXPIRED" ↔
      ∃ v b, findVoucherJoin db siteId (normalizeCode code) = some (v, b) ∧
        v.disabled = false ∧ voucherExpired b now = true) ∧
    ((redeem_voucher_run db now siteId tenantId psid code clientMac).2 =
        .error "VOUCHER_EXHAUSTED" ↔
      ∃ v b, findVoucherJoin db siteId (normalizeCode code) = some (v, b) ∧
        v.disabled = false ∧ voucherExpired b now = false ∧
        b.maxUsesPerCode ≤ v.uses) ∧
    (∀ v b, findVoucherJoin db siteId (normalizeCode code) = some (v, b) →
      v.disabled = false → voucherExpired b now = false →
      v.uses < b.maxUsesPerCode →
      (redeem_voucher_run db now siteId tenantId psid code clientMac).1.vouchers =
          db.vouchers.map (fun w =>
            if w.id = v.id then { w with uses := w.uses + 1 } else w) ∧
        (redeem_voucher_run db now siteId tenantId psid code clientMac).1.redemptions =
          db.redemptions ++
            [{ tenantId, siteId, voucherId := v.id, portalSessionId := psid,
               clientMac := m }] ∧
        (redeem_voucher_run db now siteId tenantId psid code clientMac).2 =
          .ok { tenantId, siteId, voucherId := v.id, portalSessionId := psid,
                clientMac := m }) ∧
    (∀ e, (redeem_voucher_run db now siteId tenantId psid code clientMac).2 =
        .error e →
      (redeem_voucher_run db now siteId tenantId psid code clientMac).1 = db) := by
  intro db now siteId tenantId psid code clientMac m hmac
  rcases hfv : findVoucherJoin db siteId (normalizeCode code) with _ | ⟨v, b⟩
  · refine ⟨?_, ?_, ?_, ?_, ?_, ?_⟩ <;>
      simp [redeem_voucher_run, redeem_voucher, hmac, hfv]
  · by_cases hd : v.disabled = true
    · refine ⟨?_, ?_, ?_, ?_, ?_, ?_⟩ <;>
        simp [redeem_voucher_run, redeem_voucher, hmac, hfv, hd]
    · by_cases hx : voucherExpired b now = true
      · refine ⟨?_, ?_, ?_, ?_, ?_, ?_⟩ <;>
          simp [redeem_voucher_run, redeem_voucher, hmac, hfv, hd, hx]
        exact ⟨v, b, ⟨rfl, rfl⟩, by simpa using hd, hx⟩
      · by_cases hu : b.maxUsesPerCode ≤ v.uses
        · refine ⟨?_, ?_, ?_, ?_, ?_, ?_⟩ <;>
            simp [redeem_voucher_run, redeem_voucher, hmac, hfv, hd, hx, hu]
          exact ⟨v, b, ⟨rfl, rfl⟩, by simpa using hd, by simpa using hx, hu⟩
        · refine ⟨?_, ?_, ?_, ?_, ?_, ?_⟩ <;>
            simp [redeem_voucher_run, redeem_voucher, hmac, hfv, hd, hx, hu]
          omega
/-! ## Session store: claim C2 -/

/-- C2: from a state with no cache entry and no durable row for the
(site, device) pair, two successive create_or_reuse_session calls with
the same pair -- the second spelling the address in any formatting that
normalizes identically -- return the same session handle, the second
call leaves both stores unchanged, and exactly one durable row for the
pair exists afterward. -/
theorem claim_C2 :
    ∀ (db : Db) (r : RedisState) (t1 t2 tenantId : Nat) (site : SiteRow)
      (mac1 mac2 m : List Nat) (ap1 ap2 nap1 nap2 : Option (List Nat))
      (ssid1 ssid2 url1 url2 ip1 ip2 ua1 ua2 : Option (List Nat)),
    normalize_mac mac1 = some m →
    normalize_mac mac2 = some m →
    normalizeOptMac ap1 = some nap1 →
    normalizeOptMac ap2 = some nap2 →
    get_session r t1 site.id m = none →
    t2 < t1 + PORTAL_SESSION_TTL_SECONDS →
    db.portalSessions.countP
      (fun p => p.siteId == site.id && p.clientMac == m) = 0 →
    ∃ db1 r1 d1,
      create_or_reuse_session db r t1 tenantId site mac1 ap1 ssid1 url1
          ip1 ua1 = some (db1, r1, d1) ∧
      create_or_reuse_session db1 r1 t2 tenantId site mac2 ap2 ssid2 url2
          ip2 ua2 = some (db1, r1, d1) ∧
      db1.portalSessions.countP
        (fun p => p.siteId == site.id && p.clientMac == m) = 1 := by
  intro db r t1 t2 tenantId site mac1 mac2 m ap1 ap2 nap1 nap2
  intro ssid1 ssid2 url1 url2 ip1 ip2 ua1 ua2
  intro hm1 hm2 hap1 hap2 hget ht hcount
  refine ⟨{ db with
      portalSessions := db.portalSessions ++
        [{ id := db.nextPsId, tenantId := tenantId, siteId := site.id,
           clientMac := m, apMac := nap1, ssid := ssid1,
           origUrl := sanitize_orig_url url1, ip := ip1, userAgent := ua1,
           status := .STARTED, createdAt := t1 }],
      nextPsId := db.nextPsId + 1 },
    { r with
      portalCache := upd r.portalCache (site.id, m)
        ({ portalSessionId := db.nextPsId, clientMac := m, apMac := nap1,
           ssid := ssid1, origUrl := sanitize_orig_url url1,
           createdAt := t1, status := .STARTED },
          t1 + PORTAL_SESSION_TTL_SECONDS) },
    { portalSessionId := db.nextPsId, clientMac := m, apMac := nap1,
      ssid := ssid1, origUrl := sanitize_orig_url url1, createdAt := t1,
      status := .STARTED }, ?_, ?_, ?_⟩
  · simp [create_or_reuse_session, hm1, hap1, hget]
  · have hget2 : get_session
        { r with
          portalCache := upd r.portalCache (site.id, m)
            ({ portalSessionId := db.nextPsId, clientMac := m,
               apMac := nap1, ssid := ssid1,
               origUrl := sanitize_orig_url url1, createdAt := t1,
               status := .STARTED }, t1 + PORTAL_SESSION_TTL_SECONDS) }
        t2 site.id m = some
        { portalSessionId := db.nextPsId, clientMac := m, apMac := nap1,
          ssid := ssid1, origUrl := sanitize_orig_url url1,
          createdAt := t1, status := .STARTED } := by
      simp [get_session, upd_same, ht]
    simp [create_or_reuse_session, hm2, hap2, hget2]
  · simp [List.countP_append, List.countP_cons, hcount]

/-! ## OTP challenge engine: claims C4, C5, C8 -/

/-- The challenge payload with its attempt counter incremented (what a
wrong-code verify re-stores). -/
def bumpAttempts (ch : OtpChallenge) : OtpChallenge :=
  { codeHash := ch.codeHash, attempts := ch.attempts + 1,
    createdAt := ch.createdAt }

/-- The store after a wrong-code re-store at the key with a fresh full
TTL. -/
def otpReStore (r : RedisState) (key : Nat × List Nat × List Nat)
    (ch : OtpChallenge) (now : Nat) : RedisState :=
  { r with otpStore := upd r.otpStore key (bumpAttempts ch, now + OTP_TTL_SECONDS) }

/-- The store with the challenge at the key deleted. -/
def otpErase (r : RedisState) (key : Nat × List Nat × List Nat) :
    RedisState :=
  { r with otpStore := del r.otpStore key }

/-- The store holding a freshly started challenge for the key. -/
def otpFresh (crypto : Crypto) (r : RedisState)
    (key : Nat × List Nat × List Nat) (code : List Nat) (t0 : Nat) :
    RedisState :=
  let payload : OtpChallenge :=
    { codeHash := crypto.hmacHash code, attempts := 0, createdAt := t0 }
  { r with otpStore := upd r.otpStore key (payload, t0 + OTP_TTL_SECONDS) }

/-- start_challenge stores exactly the fresh challenge. -/
theorem start_challenge_eq (crypto : Crypto) (r : RedisState)
    (t0 siteId : Nat) (clientMac email code : List Nat)
    (key : Nat × List Nat × List Nat)
    (hk : otp_key crypto siteId clientMac email = some key) :
    start_challenge crypto r t0 siteId clientMac email code =
      some (otpFresh crypto r key code t0) := by
  simp [start_challenge, hk, otpFresh]

/-- An absent (or expired) challenge fails with the expired reason and
leaves the store unchanged. -/
theorem verify_expired_of_absent (crypto : Crypto) (r : RedisState)
    (now siteId : Nat) (clientMac email code : List Nat)
    (key : Nat × List Nat × List Nat)
    (hk : otp_key crypto siteId clientMac email = some key)
    (hs : r.otpStore key = none) :
    verify_code crypto r now siteId clientMac email code =
      some (r, false, some "OTP_EXPIRED") := by
  simp [verify_code, hk, get_challenge, hs]

/-- A wrong code below the lockout threshold re-stores the challenge
with the attempt counter incremented and a fresh full TTL, failing with
the invalid reason. -/
theorem verify_wrong_step (crypto : Crypto) (r : RedisState)
    (now siteId : Nat) (clientMac email w : List Nat)
    (key : Nat × List Nat × List Nat) (ch : OtpChallenge) (exp : Nat)
    (hk : otp_key crypto siteId clientMac email = some key)
    (hs : r.otpStore key = some (ch, exp))
    (hnow : now < exp)
    (hlt : ch.attempts + 1 < OTP_MAX_ATTEMPTS)
    (hw : crypto.hmacHash w ≠ ch.codeHash) :
    verify_code crypto r now siteId clientMac email w =
      some (otpReStore r key ch now, false, some "OTP_INVALID") := by
  have hch : get_challenge r now key = some ch := by
    simp [get_challenge, hs, hnow]
  have h1 : ¬ OTP_MAX_ATTEMPTS ≤ ch.attempts := by omega
  have h2 : ¬ OTP_MAX_ATTEMPTS ≤ ch.attempts + 1 := by omega
  simp [verify_code, hk, hch, h1, h2, hw, otpReStore, bumpAttempts]

/-- The wrong code that reaches the lockout threshold deletes the
challenge and fails locked. -/
theorem verify_wrong_last (crypto : Crypto) (r : RedisState)
    (now siteId : Nat) (clientMac email w : List Nat)
    (key : Nat × List Nat × List Nat) (ch : OtpChallenge) (exp : Nat)
    (hk : otp_key crypto siteId clientMac email = some key)
    (hs : r.otpStore key = some (ch, exp))
    (hnow : now < exp)
    (hlt0 : ch.attempts < OTP_MAX_ATTEMPTS)
    (hge : OTP_MAX_ATTEMPTS ≤ ch.attempts + 1)
    (hw : crypto.hmacHash w ≠ ch.codeHash) :
    verify_code crypto r now siteId clientMac email w =
      some (otpErase (otpReStore r key ch now) key, false,
        some "OTP_LOCKED") := by
  have hch : get_challenge r now key = some ch := by
    simp [get_challenge, hs, hnow]
  have h1 : ¬ OTP_MAX_ATTEMPTS ≤ ch.attempts := by omega
  simp [verify_code, hk, hch, h1, hge, hw, otpReStore, otpErase, bumpAttempts]

/-- The matching code deletes the challenge and succeeds. -/
theorem verify_correct_step (crypto : Crypto) (r : RedisState)
    (now siteId : Nat) (clientMac email code : List Nat)
    (key : Nat × List Nat × List Nat) (ch : OtpChallenge) (exp : Nat)
    (hk : otp_key crypto siteId clientMac email = some key)
    (hs : r.otpStore key = some (ch, exp))
    (hnow : now < exp)
    (hlt0 : ch.attempts < OTP_MAX_ATTEMPTS)
    (heq : crypto.hmacHash code = ch.codeHash) :
    verify_code crypto r now siteId clientMac email code =
      some (otpErase r key, true, none) := by
  have hch : get_challenge r now key = some ch := by
    simp [get_challenge, hs, hnow]
  have h1 : ¬ OTP_MAX_ATTEMPTS ≤ ch.attempts := by omega
  simp [verify_code, hk, hch, h1, heq, otpErase]

/-- C4: start_challenge followed immediately by verify_code with the
returned code succeeds and deletes the stored challenge, and a second
verify_code with the same code then fails with the expired reason
because the challenge no longer exists. -/
theorem claim_C4 :
    ∀ (crypto : Crypto) (r : RedisState) (t0 t1 t2 siteId : Nat)
      (clientMac email code : List Nat)
      (key : Nat × List Nat × List Nat) (r1 : RedisState),
    otp_key crypto siteId clientMac email = some key →
    start_challenge crypto r t0 siteId clientMac email code = some r1 →
    t1 < t0 + OTP_TTL_SECONDS →
    ∃ r2,
      verify_code crypto r1 t1 siteId clientMac email code =
        some (r2, true, none) ∧
      r2.otpStore key = none ∧
      verify_code crypto r2 t2 siteId clientMac email code =
        some (r2, false, some "OTP_EXPIRED") := by
  intro crypto r t0 t1 t2 siteId clientMac email code key r1 hk hstart ht
  have hr1 : r1 = otpFresh crypto r key code t0 := by
    rw [start_challenge_eq crypto r t0 siteId clientMac email code key hk]
      at hstart
    exact (Option.some.injEq _ _ ▸ hstart).symm
  subst hr1
  have hs1 : (otpFresh crypto r key code t0).otpStore key =
      some ({ codeHash := crypto.hmacHash code, attempts := 0,
              createdAt := t0 }, t0 + OTP_TTL_SECONDS) := by
    simp [otpFresh]
  refine ⟨otpErase (otpFresh crypto r key code t0) key, ?_, ?_, ?_⟩
  · exact verify_correct_step crypto _ t1 siteId clientMac email code key
      _ _ hk hs1 ht (by simp [OTP_MAX_ATTEMPTS]) rfl
  · simp [otpErase]
  · refine verify_expired_of_absent crypto _ t2 siteId clientMac email code
      key hk ?_
    simp [otpErase]

/-- C5: with a stored fresh challenge, OTP_MAX_ATTEMPTS (5) consecutive
verify_code calls with wrong codes end with the challenge deleted (the
last failing locked), and a subsequent verify_code with the correct code
fails with the expired reason -- it never succeeds. -/
theorem claim_C5 :
    ∀ (crypto : Crypto) (r : RedisState) (now t' siteId : Nat)
      (clientMac email : List Nat) (key : Nat × List Nat × List Nat)
      (ch : OtpChallenge) (exp : Nat) (w1 w2 w3 w4 w5 good : List Nat),
    otp_key crypto siteId clientMac email = some key →
    r.otpStore key = some (ch, exp) →
    ch.attempts = 0 →
    now < exp →
    crypto.hmacHash w1 ≠ ch.codeHash →
    crypto.hmacHash w2 ≠ ch.codeHash →
    crypto.hmacHash w3 ≠ ch.codeHash →
    crypto.hmacHash w4 ≠ ch.codeHash →
    crypto.hmacHash w5 ≠ ch.codeHash →
    ∃ r1 r2 r3 r4 r5,
      verify_code crypto r now siteId clientMac email w1 =
        some (r1, false, some "OTP_INVALID") ∧
      verify_code crypto r1 now siteId clientMac email w2 =
        some (r2, false, some "OTP_INVALID") ∧
      verify_code crypto r2 now siteId clientMac email w3 =
        some (r3, false, some "OTP_INVALID") ∧
      verify_code crypto r3 now siteId clientMac email w4 =
        some (r4, false, some "OTP_INVALID") ∧
      verify_code crypto r4 now siteId clientMac email w5 =
        some (r5, false, some "OTP_LOCKED") ∧
      r5.otpStore key = none ∧
      verify_code crypto r5 t' siteId clientMac email good =
        some (r5, false, some "OTP_EXPIRED") := by
  intro crypto r now t' siteId clientMac email key ch exp w1 w2 w3 w4 w5 good
  intro hk hs ha0 hnow hw1 hw2 hw3 hw4 hw5
  have hfresh : now < now + OTP_TTL_SECONDS := by
    simp [OTP_TTL_SECONDS]
  have hbhash : ∀ c : OtpChallenge, (bumpAttempts c).codeHash = c.codeHash := by
    intro c
    simp [bumpAttempts]
  have hbatt : ∀ c : OtpChallenge, (bumpAttempts c).attempts = c.attempts + 1 := by
    intro c
    simp [bumpAttempts]
  set s0 := r with hs0
  set s1 := otpReStore s0 key ch now with hs1def
  set s2 := otpReStore s1 key (bumpAttempts ch) now with hs2def
  set s3 := otpReStore s2 key (bumpAttempts (bumpAttempts ch)) now with hs3def
  set s4 := otpReStore s3 key (bumpAttempts (bumpAttempts (bumpAttempts ch))) now with hs4def
  have hst1 : s1.otpStore key = some (bumpAttempts ch, now + OTP_TTL_SECONDS) := by
    simp [hs1def, otpReStore]
  have hst2 : s2.otpStore key =
      some (bumpAttempts (bumpAttempts ch), now + OTP_TTL_SECONDS) := by
    simp [hs2def, otpReStore]
  have hst3 : s3.otpStore key =
      some (bumpAttempts (bumpAttempts (bumpAttempts ch)),
        now + OTP_TTL_SECONDS) := by
    simp [hs3def, otpReStore]
  have hst4 : s4.otpStore key =
      some (bumpAttempts (bumpAttempts (bumpAttempts (bumpAttempts ch))),
        now + OTP_TTL_SECONDS) := by
    simp [hs4def, otpReStore]
  have h1 := verify_wrong_step crypto s0 now siteId clientMac email w1 key
    ch exp hk hs hnow (by simp [ha0, OTP_MAX_ATTEMPTS]) hw1
  have h2 := verify_wrong_step crypto s1 now siteId clientMac email w2 key
    (bumpAttempts ch) (now + OTP_TTL_SECONDS) hk hst1 hfresh
    (by simp [hbatt, ha0, OTP_MAX_ATTEMPTS]) (by rw [hbhash]; exact hw2)
  have h3 := verify_wrong_step crypto s2 now siteId clientMac email w3 key
    (bumpAttempts (bumpAttempts ch)) (now + OTP_TTL_SECONDS) hk hst2 hfresh
    (by simp [hbatt, ha0, OTP_MAX_ATTEMPTS])
    (by rw [hbhash, hbhash]; exact hw3)
  have h4 := verify_wrong_step crypto s3 now siteId clientMac email w4 key
    (bumpAttempts (bumpAttempts (bumpAttempts ch))) (now + OTP_TTL_SECONDS)
    hk hst3 hfresh (by simp [hbatt, ha0, OTP_MAX_ATTEMPTS])
    (by rw [hbhash, hbhash, hbhash]; exact hw4)
  have h5 := verify_wrong_last crypto s4 now siteId clientMac email w5 key
    (bumpAttempts (bumpAttempts (bumpAttempts (bumpAttempts ch))))
    (now + OTP_TTL_SECONDS) hk hst4 hfresh
    (by simp [hbatt, ha0, OTP_MAX_ATTEMPTS])
    (by simp [hbatt, ha0, OTP_MAX_ATTEMPTS])
    (by rw [hbhash, hbhash, hbhash, hbhash]; exact hw5)
  refine ⟨s1, s2, s3, s4, _, h1, h2, h3, h4, h5, ?_, ?_⟩
  · simp [otpErase]
  · refine verify_expired_of_absent crypto _ t' siteId clientMac email good
      key hk ?_
    simp [otpErase]

/-- Concrete crypto primitives for witnesses: identity hashes. -/
def crypto0 : Crypto := { hmacHash := fun l => l, sha256 := fun l => l }

/-- The empty cache. -/
def emptyRedis : RedisState :=
  { portalCache := fun _ => none, otpStore := fun _ => none,
    rlStore := fun _ => none, oidcStore := fun _ => none }

/-- The concrete OTP key of the witness scenario. -/
def otpKey0 : Nat × List Nat × List Nat := (1, macColonEx, [97])

/-- C8 counterexample: a challenge stored at time 0 carries expiry 600;
a wrong-code verify at time 100 re-stores it with expiry 700, so the
original expiry deadline is extended, contradicting the claim that the
expiry of the stored challenge stays the same. -/
theorem claim_C8_counterexample :
    ((start_challenge crypto0 emptyRedis 0 1 macColonEx [97] [49]).map
      (fun r1 => r1.otpStore otpKey0)) =
        some (some ({ codeHash := [49], attempts := 0, createdAt := 0 },
          600)) ∧
    (((start_challenge crypto0 emptyRedis 0 1 macColonEx [97] [49]).bind
      (fun r1 => verify_code crypto0 r1 100 1 macColonEx [97] [50])).map
        (fun out => (out.1.otpStore otpKey0, out.2.1, out.2.2))) =
      some (some ({ codeHash := [49], attempts := 1, createdAt := 0 },
        700), false, some "OTP_INVALID") ∧
    (700 : Nat) ≠ 600 := by
  refine ⟨by decide, by decide, by decide⟩

/-- C8 (amended): a wrong-code verify below the lockout threshold
re-stores the challenge with the same code hash and creation timestamp
and only the attempt counter incremented, fails with the invalid reason,
and touches no other key -- but the re-store uses a fresh full TTL, so
the expiry deadline becomes now + OTP_TTL_SECONDS, extending the
original deadline rather than keeping it. -/
theorem claim_C8 :
    ∀ (crypto : Crypto) (r : RedisState) (now siteId : Nat)
      (clientMac email w : List Nat) (key : Nat × List Nat × List Nat)
      (ch : OtpChallenge) (exp : Nat),
    otp_key crypto siteId clientMac email = some key →
    r.otpStore key = some (ch, exp) →
    now < exp →
    ch.attempts + 1 < OTP_MAX_ATTEMPTS →
    crypto.hmacHash w ≠ ch.codeHash →
    ∃ r2,
      verify_code crypto r now siteId clientMac email w =
        some (r2, false, some "OTP_INVALID") ∧
      r2.otpStore key = some
        ({ codeHash := ch.codeHash, attempts := ch.attempts + 1,
           createdAt := ch.createdAt }, now + OTP_TTL_SECONDS) ∧
      (∀ k', k' ≠ key → r2.otpStore k' = r.otpStore k') := by
  intro crypto r now siteId clientMac email w key ch exp hk hs hnow hlt hw
  refine ⟨otpReStore r key ch now, verify_wrong_step crypto r now siteId
      clientMac email w key ch exp hk hs hnow hlt hw, ?_, ?_⟩
  · simp [otpReStore, bumpAttempts]
  · intro k' hk'
    simp [otpReStore, upd_other _ _ _ _ hk']

/-! ## Route embeddings: guest voucher / OTP endpoints, OIDC callback -/

/-- Remaining settings defaults used by the guest routes. -/
def VOUCHER_RATE_LIMIT_WINDOW_SECONDS : Nat := 60

def VOUCHER_RATE_LIMIT_PER_IP : Nat := 10

def VOUCHER_RATE_LIMIT_PER_MAC : Nat := 10

def OTP_RATE_LIMIT_WINDOW_SECONDS : Nat := 60

def OTP_VERIFY_RATE_LIMIT_PER_IP : Nat := 10

def OTP_VERIFY_RATE_LIMIT_PER_MAC : Nat := 10

/-- The platform default base URL (opaque non-empty constant). -/
def SETTINGS_BASE_URL : List Nat := [104, 116, 116, 112]

/-- Outcome of the network-controller authorization call, supplied as an
oracle value (the adapter is an external HTTP collaborator). -/
structure UnifiOutcome where
  authorized : Bool
  reason : Option String
  unifiClientId : Option (List Nat)
deriving DecidableEq

/-- Guest endpoint responses: a success payload or a coded HTTP error. -/
inductive GuestResp where
  | ok (continueUrl : List Nat)
  | err (status : Nat) (code : String)
deriving DecidableEq

/-- Browser-navigated callback responses: a redirect back to the portal
(with an optional error code in the query string) or a raw HTTP error.  -/
inductive CallbackResp where
  | redirectError (psid : Option Nat) (code : String)
  | redirectSuccess (psid : Nat)
  | httpError (status : Nat) (code : String)
deriving DecidableEq

/-- Site lookup joined to its tenant by slugs. -/
def getSite (db : Db) (tenantSlug siteSlug : String) : Option SiteRow :=
  db.sites.find? (fun st => st.slug == siteSlug &&
    db.tenants.any (fun t => t.id == st.tenantId && t.slug == tenantSlug))

/-- Portal-session lookup by id scoped to the site; none in the argument
models an unparseable session id. -/
def getPortalSession (db : Db) (psidArg : Option Nat) (site : SiteRow) :
    Except (Nat × String) PsRow :=
  match psidArg with
  | none => .error (400, "INVALID_SESSION")
  | some sid =>
    match db.portalSessions.find?
        (fun p => p.id == sid && p.siteId == site.id) with
    | some p => .ok p
    | none => .error (404, "NOT_FOUND")

/-- Append one audit event row (the commit in _log_auth_event). -/
def logAuthEvent (db : Db) (site : SiteRow) (ps : PsRow)
    (method result : String) (reason : Option String)
    (unifiClientId : Option (List Nat))
    (identity : Option GuestIdentityRow) : Db :=
  let ev : AuthEventRow :=
    { tenantId := site.tenantId, siteId := site.id,
      portalSessionId := some ps.id,
      guestIdentityId := identity.map (fun g => g.id), method, result,
      reason, unifiClientId }
  { db with authEvents := db.authEvents ++ [ev] }

/-- Guest upsert of an identity by (tenant, email). -/
def upsert_guest_identity (db : Db) (tenantId : Nat) (email : List Nat) :
    Db × GuestIdentityRow :=
  match db.guestIdentities.find?
      (fun g => g.tenantId == tenantId && g.email == some email) with
  | some g => (db, g)
  | none =>
    let g : GuestIdentityRow :=
      { id := db.nextIdentityId, tenantId, email := some email,
        oidcSub := none, displayName := none }
    let db2 :=
      { db with guestIdentities := db.guestIdentities ++ [g], nextIdentityId := db.nextIdentityId + 1 }
    (db2, g)

/-- Fallback chain of _continue_url: a present non-empty URL wins. -/
def url_or_fallback (o : Option (List Nat)) (fb : List Nat) : List Nat :=
  match o with
  | some u => if u = [] then fb else u
  | none => fb

/-- The continuation URL: session original URL, else site success URL,
else the platform default. -/
def continue_url (ps : PsRow) (site : SiteRow) : List Nat :=
  url_or_fallback ps.origUrl (url_or_fallback site.successUrl SETTINGS_BASE_URL)

/-- Embedding of the guest otp/verify endpoint.  The 500 INTERNAL arms
model uncaught ValueError paths that cannot fire when the session row
holds a canonical address. -/
def otp_verify (crypto : Crypto) (db : Db) (r : RedisState) (now : Nat)
    (tenantSlug siteSlug : String) (psidArg : Option Nat)
    (email code clientIp : List Nat) (unifi : UnifiOutcome) :
    Db × RedisState × GuestResp :=
  match getSite db tenantSlug siteSlug with
  | none => (db, r, .err 404 "NOT_FOUND")
  | some site =>
    match getPortalSession db psidArg site with
    | .error ec => (db, r, .err ec.1 ec.2)
    | .ok ps =>
      let rl1 := enforce_rate_limit r now (limit_key_ip clientIp "otp_verify")
        OTP_VERIFY_RATE_LIMIT_PER_IP OTP_RATE_LIMIT_WINDOW_SECONDS
      match rl1.2 with
      | some ec => (db, rl1.1, .err ec.1 ec.2)
      | none =>
        match limit_key_mac site.id ps.clientMac "otp_verify" with
        | none => (db, rl1.1, .err 500 "INTERNAL")
        | some mkey =>
          let rl2 := enforce_rate_limit rl1.1 now mkey
            OTP_VERIFY_RATE_LIMIT_PER_MAC OTP_RATE_LIMIT_WINDOW_SECONDS
          match rl2.2 with
          | some ec => (db, rl2.1, .err ec.1 ec.2)
          | none =>
            match verify_code crypto rl2.1 now site.id ps.clientMac email
                code with
            | none => (db, rl2.1, .err 500 "INTERNAL")
            | some vres =>
              if vres.2.1 = false then
                let db2 := logAuthEvent db site ps "EMAIL_OTP" "FAIL"
                  vres.2.2 none none
                (db2, vres.1, .err 400 "OTP_INVALID")
              else
                let pair := upsert_guest_identity db site.tenantId email
                if unifi.authorized = false then
                  match set_status pair.1 vres.1 now site.id ps.clientMac
                      .FAILED with
                  | none => (pair.1, vres.1, .err 500 "INTERNAL")
                  | some st =>
                    let db4 := logAuthEvent st.1 site ps "EMAIL_OTP" "FAIL"
                      unifi.reason unifi.unifiClientId (some pair.2)
                    (db4, st.2, .err 502 "UNIFI_ERROR")
                else
                  match set_status pair.1 vres.1 now site.id ps.clientMac
                      .AUTHORIZED with
                  | none => (pair.1, vres.1, .err 500 "INTERNAL")
                  | some st =>
                    let db4 := logAuthEvent st.1 site ps "EMAIL_OTP"
                      "SUCCESS" none unifi.unifiClientId (some pair.2)
                    (db4, st.2, .ok (continue_url ps site))

/-- Embedding of the guest voucher endpoint.  A VoucherError transitions
the session to FAILED and writes the FAIL event before the 409; the
INVALID_MAC ValueError is not caught by the route (500 arm). -/
def voucher_auth (db : Db) (r : RedisState) (now : Nat)
    (tenantSlug siteSlug : String) (psidArg : Option Nat)
    (code clientIp : List Nat) (unifi : UnifiOutcome) :
    Db × RedisState × GuestResp :=
  match getSite db tenantSlug siteSlug with
  | none => (db, r, .err 404 "NOT_FOUND")
  | some site =>
    match getPortalSession db psidArg site with
    | .error ec => (db, r, .err ec.1 ec.2)
    | .ok ps =>
      let rl1 := enforce_rate_limit r now (limit_key_ip clientIp "voucher")
        VOUCHER_RATE_LIMIT_PER_IP VOUCHER_RATE_LIMIT_WINDOW_SECONDS
      match rl1.2 with
      | some ec => (db, rl1.1, .err ec.1 ec.2)
      | none =>
        match limit_key_mac site.id ps.clientMac "voucher" with
        | none => (db, rl1.1, .err 500 "INTERNAL")
        | some mkey =>
          let rl2 := enforce_rate_limit rl1.1 now mkey
            VOUCHER_RATE_LIMIT_PER_MAC VOUCHER_RATE_LIMIT_WINDOW_SECONDS
          match rl2.2 with
          | some ec => (db, rl2.1, .err ec.1 ec.2)
          | none =>
            match redeem_voucher db now site.id site.tenantId (some ps.id)
                code ps.clientMac with
            | .error e =>
              if e = "INVALID_MAC" then (db, rl2.1, .err 500 "INTERNAL")
              else
                match set_status db rl2.1 now site.id ps.clientMac
                    .FAILED with
                | none => (db, rl2.1, .err 500 "INTERNAL")
                | some st =>
                  let db4 := logAuthEvent st.1 site ps "VOUCHER" "FAIL"
                    (some e) none none
                  (db4, st.2, .err 409 "VOUCHER_INVALID")
            | .ok dbred =>
              if unifi.authorized = false then
                match set_status dbred.1 rl2.1 now site.id ps.clientMac
                    .FAILED with
                | none => (dbred.1, rl2.1, .err 500 "INTERNAL")
                | some st =>
                  let db4 := logAuthEvent st.1 site ps "VOUCHER" "FAIL"
                    unifi.reason unifi.unifiClientId none
                  (db4, st.2, .err 502 "UNIFI_ERROR")
              else
                match set_status dbred.1 rl2.1 now site.id ps.clientMac
                    .AUTHORIZED with
                | none => (dbred.1, rl2.1, .err 500 "INTERNAL")
                | some st =>
                  let db4 := logAuthEvent st.1 site ps "VOUCHER" "SUCCESS"
                    none unifi.unifiClientId none
                  (db4, st.2, .ok (continue_url ps site))

/-- OIDC identity claims extracted from the validated token. -/
structure OidcClaims where
  sub : Option (List Nat)
  email : Option (List Nat)
  name : Option (List Nat)
  preferredUsername : Option (List Nat)
deriving DecidableEq

/-- Python falsiness of an optional string. -/
def blank : Option (List Nat) → Bool
  | none => true
  | some s => s.isEmpty

/-- The enabled OIDC setting of a site joined to its provider. -/
def get_oidc_setting (db : Db) (site : SiteRow) :
    Option (SiteOidcRow × Nat) :=
  db.siteOidc.findSome? fun so =>
    if so.siteId == site.id && so.enabled then
      (db.oidcProviders.find? (fun pid => pid == so.providerId)).map
        (fun pid => (so, pid))
    else none

/-- Stored OIDC state lookup honouring expiry. -/
def get_oidc_state (r : RedisState) (now : Nat) (psid : Nat) :
    Option OidcStateData :=
  match r.oidcStore psid with
  | some (d, exp) => if now < exp then some d else none
  | none => none

/-- Clearing the stored OIDC state after success. -/
def clear_oidc_state (r : RedisState) (psid : Nat) : RedisState :=
  { r with oidcStore := del r.oidcStore psid }

/-- The session id parsed from the prefix of the state token before the
first dot; the uuid-literal parser is supplied by the caller. -/
def portal_session_from_state (parseUuid : List Nat → Option Nat)
    (state : List Nat) : Option Nat :=
  if state.contains 46 then
    parseUuid (state.takeWhile (fun c => !(c == 46)))
  else none

/-- Split a codepoint string on a separator character. -/
def splitOnChar (sep : Nat) : List Nat → List (List Nat)
  | [] => [[]]
  | c :: rest =>
    let r := splitOnChar sep rest
    if c = sep then [] :: r
    else
      match r with
      | [] => [[c]]
      | h :: t => (c :: h) :: t

/-- The allowed-domain set: comma-split, trimmed, lowercased, empties
dropped. -/
def parse_domains (domains : Option (List Nat)) : List (List Nat) :=
  match domains with
  | none => []
  | some d =>
    if d = [] then []
    else ((splitOnChar 44 d).map (fun v => pyLower (pyStrip v))).filter
      (fun v => !v.isEmpty)

/-- The lowercased domain part of an email (empty when no at-sign). -/
def email_domain (email : List Nat) : List Nat :=
  if email.contains 64 then
    pyLower ((email.dropWhile (fun c => !(c == 64))).drop 1)
  else []

/-- OIDC upsert of an identity by (tenant, subject), refreshing email
and display name on every login. -/
def upsert_identity_oidc (db : Db) (tenantId : Nat) (sub : List Nat)
    (email displayName : Option (List Nat)) : Db × GuestIdentityRow :=
  match db.guestIdentities.find?
      (fun g => g.tenantId == tenantId && g.oidcSub == some sub) with
  | some g =>
    let g2 := { g with email := email, displayName := displayName }
    let newIds :=
      db.guestIdentities.map (fun x => if x.id = g.id then g2 else x)
    ({ db with guestIdentities := newIds }, g2)
  | none =>
    let g : GuestIdentityRow :=
      { id := db.nextIdentityId, tenantId, email, oidcSub := some sub,
        displayName }
    let db2 :=
      { db with guestIdentities := db.guestIdentities ++ [g], nextIdentityId := db.nextIdentityId + 1 }
    (db2, g)

/-- Embedding of _mark_failed: transition the session to FAILED, then
append the FAIL audit event. -/
def mark_failed (db : Db) (r : RedisState) (now : Nat) (site : SiteRow)
    (ps : PsRow) (reason : String) : Option (Db × RedisState) :=
  (set_status db r now site.id ps.clientMac .FAILED).map fun st =>
    (logAuthEvent st.1 site ps "OIDC" "FAIL" (some reason) none none, st.2)

/-- Embedding of the OIDC callback route.  The token-exchange network
call and the controller authorization are oracle arguments; the uuid
parser of the state-token prefix is likewise supplied. -/
def oidc_callback (db : Db) (r : RedisState) (now : Nat)
    (parseUuid : List Nat → Option Nat) (tenantSlug siteSlug : String)
    (state code errParam : Option (List Nat))
    (exchange : Except String OidcClaims) (unifi : UnifiOutcome) :
    Db × RedisState × CallbackResp :=
  match getSite db tenantSlug siteSlug with
  | none => (db, r, .httpError 404 "NOT_FOUND")
  | some site =>
    if site.enabled = false then (db, r, .httpError 404 "NOT_FOUND")
    else if blank errParam = false then
      (db, r, .redirectError none "OIDC_PROVIDER_ERROR")
    else if blank state || blank code then
      (db, r, .redirectError none "OIDC_STATE_INVALID")
    else
      match portal_session_from_state parseUuid (state.getD []) with
      | none => (db, r, .redirectError none "OIDC_STATE_INVALID")
      | some psid =>
        match get_oidc_state r now psid with
        | none => (db, r, .redirectError (some psid) "OIDC_STATE_INVALID")
        | some stored =>
          if stored.state ≠ state.getD [] then
            (db, r, .redirectError (some psid) "OIDC_STATE_INVALID")
          else
            match get_oidc_setting db site with
            | none => (db, r, .httpError 404 "OIDC_DISABLED")
            | some sp =>
              if sp.2 ≠ stored.providerId then
                (db, r, .redirectError (some psid) "OIDC_PROVIDER_MISMATCH")
              else
                match db.portalSessions.find?
                    (fun p => p.id == psid && p.siteId == site.id) with
                | none => (db, r, .httpError 404 "NOT_FOUND")
                | some ps =>
                  match exchange with
                  | .error ecode =>
                    match mark_failed db r now site ps ecode with
                    | none => (db, r, .httpError 500 "INTERNAL")
                    | some mf =>
                      (mf.1, mf.2, .redirectError (some psid) ecode)
                  | .ok claims =>
                    if blank claims.sub then
                      match mark_failed db r now site ps
                          "OIDC_SUB_MISSING" with
                      | none => (db, r, .httpError 500 "INTERNAL")
                      | some mf =>
                        (mf.1, mf.2,
                          .redirectError (some psid) "OIDC_SUB_MISSING")
                    else
                      let allowed := parse_domains sp.1.allowedDomains
                      if allowed ≠ [] ∧ (blank claims.email = true ∨
                          allowed.contains
                            (email_domain (claims.email.getD [])) = false) then
                        match mark_failed db r now site ps
                            "OIDC_DOMAIN_DENIED" with
                        | none => (db, r, .httpError 500 "INTERNAL")
                        | some mf =>
                          (mf.1, mf.2,
                            .redirectError (some psid) "OIDC_DOMAIN_DENIED")
                      else
                        let dn := match claims.name with
                          | some n =>
                            if n = [] then claims.preferredUsername
                            else some n
                          | none => claims.preferredUsername
                        let pair := upsert_identity_oidc db site.tenantId
                          (claims.sub.getD []) claims.email dn
                        if unifi.authorized = false then
                          match set_status pair.1 r now site.id
                              ps.clientMac .FAILED with
                          | none => (pair.1, r, .httpError 500 "INTERNAL")
                          | some st =>
                            (logAuthEvent st.1 site ps "OIDC" "FAIL"
                              unifi.reason unifi.unifiClientId (some pair.2),
                              st.2, .redirectError (some psid) "UNIFI_ERROR")
                        else
                          match set_status pair.1 r now site.id
                              ps.clientMac .AUTHORIZED with
                          | none => (pair.1, r, .httpError 500 "INTERNAL")
                          | some st =>
                            (logAuthEvent st.1 site ps "OIDC" "SUCCESS"
                              none unifi.unifiClientId (some pair.2),
                              clear_oidc_state st.2 ps.id,
                              .redirectSuccess psid)

/-! ## Frame lemmas and claim C10 -/

/-- The rate limiter touches only the counter namespace. -/
theorem enforce_rate_limit_frame (r : RedisState) (now : Nat)
    (k : ScopeKey) (lim w : Nat) :
    (enforce_rate_limit r now k lim w).1.portalCache = r.portalCache ∧
    (enforce_rate_limit r now k lim w).1.otpStore = r.otpStore ∧
    (enforce_rate_limit r now k lim w).1.oidcStore = r.oidcStore := by
  have hincr : (redisIncr r now (k, now / w)).1.portalCache = r.portalCache ∧
      (redisIncr r now (k, now / w)).1.otpStore = r.otpStore ∧
      (redisIncr r now (k, now / w)).1.oidcStore = r.oidcStore := by
    simp only [redisIncr]
    rcases hr : r.rlStore (k, now / w) with _ | ⟨c, e⟩
    · simp
    · rcases e with _ | e
      · simp
      · by_cases he : e ≤ now
        · simp [he]
        · simp [he]
  simp only [enforce_rate_limit]
  split
  · split
    · exact hincr
    · exact hincr
  · split
    · exact hincr
    · exact hincr

/-- verify_code touches only the OTP namespace. -/
theorem verify_code_cache_frame (crypto : Crypto) (r : RedisState)
    (now siteId : Nat) (clientMac email code : List Nat)
    (out : RedisState × Bool × Option String)
    (h : verify_code crypto r now siteId clientMac email code = some out) :
    out.1.portalCache = r.portalCache ∧ out.1.rlStore = r.rlStore ∧
      out.1.oidcStore = r.oidcStore := by
  rcases hk : otp_key crypto siteId clientMac email with _ | key
  · simp [verify_code, hk] at h
  · simp only [verify_code, hk, Option.map_some', Option.some.injEq] at h
    cases h
    rcases hch : get_challenge r now key with _ | ch
    · simp [hch]
    · simp only [hch]
      split
      · simp
      · split
        · split <;> simp
        · simp

/-- set_status leaves every table but the portal sessions, and every
cache namespace but the portal cache, unchanged. -/
theorem set_status_frame (db : Db) (r : RedisState) (now siteId : Nat)
    (clientMac : List Nat) (status : PsStatus) (db2 : Db) (r2 : RedisState)
    (h : set_status db r now siteId clientMac status = some (db2, r2)) :
    db2.authEvents = db.authEvents ∧ db2.vouchers = db.vouchers ∧
      db2.redemptions = db.redemptions ∧
      db2.guestIdentities = db.guestIdentities ∧
      r2.otpStore = r.otpStore ∧ r2.rlStore = r.rlStore ∧
      r2.oidcStore = r.oidcStore := by
  rcases hm : normalize_mac clientMac with _ | nc
  · simp [set_status, hm] at h
  · simp only [set_status, hm, Option.map_some', Option.some.injEq] at h
    rcases hg : get_session r now siteId nc with _ | ex <;> rw [hg] at h <;>
      rcases hf : db.portalSessions.find?
        (fun p => p.siteId == siteId && p.clientMac == nc) with _ | p0 <;>
      rw [hf] at h <;> cases h <;> simp

/-- Appending an audit event does not touch the session rows. -/
theorem logAuthEvent_portalSessions (db : Db) (site : SiteRow) (ps : PsRow)
    (method result : String) (reason : Option String)
    (ucid : Option (List Nat)) (identity : Option GuestIdentityRow) :
    (logAuthEvent db site ps method result reason ucid identity).portalSessions
      = db.portalSessions := by
  simp [logAuthEvent]

/-- C10: when OTP verification itself fails at the guest otp/verify
endpoint, the handler appends one FAIL audit event and returns the 400
error without any session-status transition (durable rows and portal
cache are untouched); a voucher-redemption failure instead transitions
the session to FAILED (via set_status) before writing its FAIL audit
event and returning the 409 error. -/
theorem claim_C10 :
    (∀ (crypto : Crypto) (db : Db) (r : RedisState) (now : Nat)
       (tenantSlug siteSlug : String) (psidArg : Option Nat)
       (email code clientIp : List Nat) (unifi : UnifiOutcome)
       (site : SiteRow) (ps : PsRow) (mkey : ScopeKey)
       (out : RedisState × Bool × Option String) (reason : String),
      getSite db tenantSlug siteSlug = some site →
      getPortalSession db psidArg site = .ok ps →
      (enforce_rate_limit r now (limit_key_ip clientIp "otp_verify")
        OTP_VERIFY_RATE_LIMIT_PER_IP OTP_RATE_LIMIT_WINDOW_SECONDS).2 =
          none →
      limit_key_mac site.id ps.clientMac "otp_verify" = some mkey →
      (enforce_rate_limit
        (enforce_rate_limit r now (limit_key_ip clientIp "otp_verify")
          OTP_VERIFY_RATE_LIMIT_PER_IP OTP_RATE_LIMIT_WINDOW_SECONDS).1
        now mkey OTP_VERIFY_RATE_LIMIT_PER_MAC
        OTP_RATE_LIMIT_WINDOW_SECONDS).2 = none →
      verify_code crypto
        (enforce_rate_limit
          (enforce_rate_limit r now (limit_key_ip clientIp "otp_verify")
            OTP_VERIFY_RATE_LIMIT_PER_IP OTP_RATE_LIMIT_WINDOW_SECONDS).1
          now mkey OTP_VERIFY_RATE_LIMIT_PER_MAC
          OTP_RATE_LIMIT_WINDOW_SECONDS).1
        now site.id ps.clientMac email code = some out →
      out.2.1 = false →
      out.2.2 = some reason →
      otp_verify crypto db r now tenantSlug siteSlug psidArg email code
          clientIp unifi =
        (logAuthEvent db site ps "EMAIL_OTP" "FAIL" (some reason) none none,
          out.1, .err 400 "OTP_INVALID") ∧
      (logAuthEvent db site ps "EMAIL_OTP" "FAIL" (some reason) none
        none).portalSessions = db.portalSessions ∧
      out.1.portalCache = r.portalCache) ∧
    (∀ (db : Db) (r : RedisState) (now : Nat) (tenantSlug siteSlug : String)
       (psidArg : Option Nat) (code clientIp : List Nat)
       (unifi : UnifiOutcome) (site : SiteRow) (ps : PsRow)
       (mkey : ScopeKey) (e : String) (db3 : Db) (r4 : RedisState),
      getSite db tenantSlug siteSlug = some site →
      getPortalSession db psidArg site = .ok ps →
      (enforce_rate_limit r now (limit_key_ip clientIp "voucher")
        VOUCHER_RATE_LIMIT_PER_IP VOUCHER_RATE_LIMIT_WINDOW_SECONDS).2 =
          none →
      limit_key_mac site.id ps.clientMac "voucher" = some mkey →
      (enforce_rate_limit
        (enforce_rate_limit r now (limit_key_ip clientIp "voucher")
          VOUCHER_RATE_LIMIT_PER_IP VOUCHER_RATE_LIMIT_WINDOW_SECONDS).1
        now mkey VOUCHER_RATE_LIMIT_PER_MAC
        VOUCHER_RATE_LIMIT_WINDOW_SECONDS).2 = none →
      redeem_voucher db now site.id site.tenantId (some ps.id) code
        ps.clientMac = .error e →
      e ≠ "INVALID_MAC" →
      set_status db
        (enforce_rate_limit
          (enforce_rate_limit r now (limit_key_ip clientIp "voucher")
            VOUCHER_RATE_LIMIT_PER_IP VOUCHER_RATE_LIMIT_WINDOW_SECONDS).1
          now mkey VOUCHER_RATE_LIMIT_PER_MAC
          VOUCHER_RATE_LIMIT_WINDOW_SECONDS).1
        now site.id ps.clientMac .FAILED = some (db3, r4) →
      voucher_auth db r now tenantSlug siteSlug psidArg code clientIp
          unifi =
        (logAuthEvent db3 site ps "VOUCHER" "FAIL" (some e) none none, r4,
          .err 409 "VOUCHER_INVALID")) := by
  constructor
  · intro crypto db r now tenantSlug siteSlug psidArg email code clientIp
      unifi site ps mkey out reason
    intro hsite hps hrl1 hmk hrl2 hv hfalse hreason
    refine ⟨?_, logAuthEvent_portalSessions db site ps "EMAIL_OTP" "FAIL"
      (some reason) none none, ?_⟩
    · simp only [otp_verify, hsite, hps, hrl1, hmk, hrl2, hv, hfalse,
        if_pos rfl, hreason]
      simp
    · have h1 := (enforce_rate_limit_frame r now
        (limit_key_ip clientIp "otp_verify") OTP_VERIFY_RATE_LIMIT_PER_IP
        OTP_RATE_LIMIT_WINDOW_SECONDS).1
      have h2 := (enforce_rate_limit_frame
        (enforce_rate_limit r now (limit_key_ip clientIp "otp_verify")
          OTP_VERIFY_RATE_LIMIT_PER_IP OTP_RATE_LIMIT_WINDOW_SECONDS).1
        now mkey OTP_VERIFY_RATE_LIMIT_PER_MAC
        OTP_RATE_LIMIT_WINDOW_SECONDS).1
      have h3 := (verify_code_cache_frame crypto _ now site.id ps.clientMac
        email code out hv).1
      rw [h3, h2, h1]
  · intro db r now tenantSlug siteSlug psidArg code clientIp unifi site ps
      mkey e db3 r4
    intro hsite hps hrl1 hmk hrl2 hredeem hnotmac hset
    simp only [voucher_auth, hsite, hps, hrl1, hmk, hrl2, hredeem, hset,
      if_neg hnotmac]

/-! ## OIDC callback: claim C6 -/

/-- A concrete tenant for counterexamples and witnesses. -/
def tenant0 : TenantRow := { id := 0, slug := "t" }

/-- A concrete enabled site. -/
def site0 : SiteRow :=
  { id := 0, tenantId := 0, slug := "s", enabled := true,
    successUrl := none, defaultTimeLimitMinutes := 60,
    defaultDataLimitMb := none, defaultRxKbps := none,
    defaultTxKbps := none }

/-- A durable store holding just the tenant and site. -/
def db0 : Db :=
  { tenants := [tenant0], sites := [site0], portalSessions := [],
    nextPsId := 0, authEvents := [], guestIdentities := [],
    nextIdentityId := 0, vouchers := [], voucherBatches := [],
    redemptions := [], siteOidc := [], oidcProviders := [] }

/-- Empty identity claims for oracle arguments. -/
def claims0 : OidcClaims :=
  { sub := none, email := none, name := none, preferredUsername := none }

/-- A failing controller outcome for oracle arguments. -/
def unifi0 : UnifiOutcome :=
  { authorized := false, reason := some "UNIFI_ERROR",
    unifiClientId := none }

/-- C6 counterexample: a callback with an absent state token redirects
with the state-invalid error code but writes no FAIL audit event (the
audit trail stays empty), contradicting the claim that every failure
path writes a FAIL audit event. -/
theorem claim_C6_counterexample :
    (oidc_callback db0 emptyRedis 0 (fun _ => none) "t" "s" none
        (some [97]) none (.ok claims0) unifi0).2.2 =
      .redirectError none "OIDC_STATE_INVALID" ∧
    (oidc_callback db0 emptyRedis 0 (fun _ => none) "t" "s" none
        (some [97]) none (.ok claims0) unifi0).1.authEvents = [] := by
  constructor
  · rfl
  · rfl

/-- _mark_failed appends exactly one OIDC FAIL audit event. -/
theorem mark_failed_authEvents (db : Db) (r : RedisState) (now : Nat)
    (site : SiteRow) (ps : PsRow) (reason : String) (mf : Db × RedisState)
    (h : mark_failed db r now site ps reason = some mf) :
    mf.1.authEvents = db.authEvents ++
      [{ tenantId := site.tenantId, siteId := site.id,
         portalSessionId := some ps.id, guestIdentityId := none,
         method := "OIDC", result := "FAIL", reason := some reason,
         unifiClientId := none }] := by
  rcases hss : set_status db r now site.id ps.clientMac .FAILED with _ | st
  · simp [mark_failed, hss] at h
  · simp only [mark_failed, hss, Option.map_some', Option.some.injEq] at h
    cases h
    have hfr := (set_status_frame db r now site.id ps.clientMac .FAILED
      st.1 st.2 (by rw [hss])).1
    simp [logAuthEvent, hfr]

/-- C6 (amended): in the federated-identity callback, the state-token
failures (absent, malformed, not found, or mismatched stored state) and
the provider-mismatch failure redirect back to the portal with the error
code in the query string but write no audit event and leave both stores
unchanged; the later failures -- token exchange, missing subject, and
domain denied -- write exactly one FAIL audit event and likewise
redirect with the error code rather than returning a raw error
payload. -/
theorem claim_C6 :
    ∀ (db : Db) (r : RedisState) (now : Nat)
      (parseUuid : List Nat → Option Nat) (tenantSlug siteSlug : String)
      (state code errParam : Option (List Nat))
      (exchange : Except String OidcClaims) (unifi : UnifiOutcome)
      (site : SiteRow),
    getSite db tenantSlug siteSlug = some site →
    site.enabled = true →
    blank errParam = true →
    (((blank state || blank code) = true →
      oidc_callback db r now parseUuid tenantSlug siteSlug state code
          errParam exchange unifi =
        (db, r, .redirectError none "OIDC_STATE_INVALID")) ∧
    ((blank state || blank code) = false →
      portal_session_from_state parseUuid (state.getD []) = none →
      oidc_callback db r now parseUuid tenantSlug siteSlug state code
          errParam exchange unifi =
        (db, r, .redirectError none "OIDC_STATE_INVALID")) ∧
    (∀ psid, (blank state || blank code) = false →
      portal_session_from_state parseUuid (state.getD []) = some psid →
      get_oidc_state r now psid = none →
      oidc_callback db r now parseUuid tenantSlug siteSlug state code
          errParam exchange unifi =
        (db, r, .redirectError (some psid) "OIDC_STATE_INVALID")) ∧
    (∀ psid stored, (blank state || blank code) = false →
      portal_session_from_state parseUuid (state.getD []) = some psid →
      get_oidc_state r now psid = some stored →
      stored.state ≠ state.getD [] →
      oidc_callback db r now parseUuid tenantSlug siteSlug state code
          errParam exchange unifi =
        (db, r, .redirectError (some psid) "OIDC_STATE_INVALID")) ∧
    (∀ psid stored sp, (blank state || blank code) = false →
      portal_session_from_state parseUuid (state.getD []) = some psid →
      get_oidc_state r now psid = some stored →
      stored.state = state.getD [] →
      get_oidc_setting db site = some sp →
      sp.2 ≠ stored.providerId →
      oidc_callback db r now parseUuid tenantSlug siteSlug state code
          errParam exchange unifi =
        (db, r, .redirectError (some psid) "OIDC_PROVIDER_MISMATCH")) ∧
    (∀ psid stored sp ps ecode mf, (blank state || blank code) = false →
      portal_session_from_state parseUuid (state.getD []) = some psid →
      get_oidc_state r now psid = some stored →
      stored.state = state.getD [] →
      get_oidc_setting db site = some sp →
      sp.2 = stored.providerId →
      db.portalSessions.find?
        (fun p => p.id == psid && p.siteId == site.id) = some ps →
      exchange = .error ecode →
      mark_failed db r now site ps ecode = some mf →
      oidc_callback db r now parseUuid tenantSlug siteSlug state code
          errParam exchange unifi =
        (mf.1, mf.2, .redirectError (some psid) ecode) ∧
      mf.1.authEvents = db.authEvents ++
        [{ tenantId := site.tenantId, siteId := site.id,
           portalSessionId := some ps.id, guestIdentityId := none,
           method := "OIDC", result := "FAIL", reason := some ecode,
           unifiClientId := none }]) ∧
    (∀ psid stored sp ps claims mf, (blank state || blank code) = false →
      portal_session_from_state parseUuid (state.getD []) = some psid →
      get_oidc_state r now psid = some stored →
      stored.state = state.getD [] →
      get_oidc_setting db site = some sp →
      sp.2 = stored.providerId →
      db.portalSessions.find?
        (fun p => p.id == psid && p.siteId == site.id) = some ps →
      exchange = .ok claims →
      blank claims.sub = true →
      mark_failed db r now site ps "OIDC_SUB_MISSING" = some mf →
      oidc_callback db r now parseUuid tenantSlug siteSlug state code
          errParam exchange unifi =
        (mf.1, mf.2, .redirectError (some psid) "OIDC_SUB_MISSING") ∧
      mf.1.authEvents = db.authEvents ++
        [{ tenantId := site.tenantId, siteId := site.id,
           portalSessionId := some ps.id, guestIdentityId := none,
           method := "OIDC", result := "FAIL",
           reason := some "OIDC_SUB_MISSING", unifiClientId := none }]) ∧
    (∀ psid stored sp ps claims mf, (blank state || blank code) = false →
      portal_session_from_state parseUuid (state.getD []) = some psid →
      get_oidc_state r now psid = some stored →
      stored.state = state.getD [] →
      get_oidc_setting db site = some sp →
      sp.2 = stored.providerId →
      db.portalSessions.find?
        (fun p => p.id == psid && p.siteId == site.id) = some ps →
      exchange = .ok claims →
      blank claims.sub = false →
      (parse_domains sp.1.allowedDomains ≠ [] ∧
        (blank claims.email = true ∨
          (parse_domains sp.1.allowedDomains).contains
            (email_domain (claims.email.getD [])) = false)) →
      mark_failed db r now site ps "OIDC_DOMAIN_DENIED" = some mf →
      oidc_callback db r now parseUuid tenantSlug siteSlug state code
          errParam exchange unifi =
        (mf.1, mf.2, .redirectError (some psid) "OIDC_DOMAIN_DENIED") ∧
      mf.1.authEvents = db.authEvents ++
        [{ tenantId := site.tenantId, siteId := site.id,
           portalSessionId := some ps.id, guestIdentityId := none,
           method := "OIDC", result := "FAIL",
           reason := some "OIDC_DOMAIN_DENIED",
           unifiClientId := none }])) := by
  intro db r now parseUuid tenantSlug siteSlug state code errParam
    exchange unifi site hsite hen herr
  refine ⟨?_, ?_, ?_, ?_, ?_, ?_, ?_, ?_⟩
  · intro hsc
    simp [oidc_callback, hsite, hen, herr, hsc]
  · intro hsc hparse
    simp [oidc_callback, hsite, hen, herr, hsc, hparse]
  · intro psid hsc hparse hstored
    simp [oidc_callback, hsite, hen, herr, hsc, hparse, hstored]
  · intro psid stored hsc hparse hstored hne
    simp [oidc_callback, hsite, hen, herr, hsc, hparse, hstored, hne]
  · intro psid stored sp hsc hparse hstored heq hset hprov
    simp [oidc_callback, hsite, hen, herr, hsc, hparse, hstored, heq,
      hset, hprov]
  · intro psid stored sp ps ecode mf hsc hparse hstored heq hset hprov
      hfind hex hmf
    refine ⟨?_, mark_failed_authEvents db r now site ps ecode mf hmf⟩
    simp [oidc_callback, hsite, hen, herr, hsc, hparse, hstored, heq,
      hset, hprov, hfind, hex, hmf]
  · intro psid stored sp ps claims mf hsc hparse hstored heq hset hprov
      hfind hex hsub hmf
    refine ⟨?_, mark_failed_authEvents db r now site ps "OIDC_SUB_MISSING"
      mf hmf⟩
    simp [oidc_callback, hsite, hen, herr, hsc, hparse, hstored, heq,
      hset, hprov, hfind, hex, hsub, hmf]
  · intro psid stored sp ps claims mf hsc hparse hstored heq hset hprov
      hfind hex hsub hdom hmf
    refine ⟨?_, mark_failed_authEvents db r now site ps
      "OIDC_DOMAIN_DENIED" mf hmf⟩
    simp only [oidc_callback, hsite, hen, herr, hsc, hparse, hstored, heq,
      hset, hprov, hfind, hex, hsub, hdom, hmf]
    simp [hsub, hdom, hmf]

/-! ## Concrete witness scenarios -/

/-- A concrete portal-session row for witness scenarios. -/
def ps0 : PsRow :=
  { id := 5, tenantId := 0, siteId := 0, clientMac := macColonEx,
    apMac := none, ssid := none, origUrl := none, ip := none,
    userAgent := none, status := .STARTED, createdAt := 0 }

/-- The store of tenant, site and one session row. -/
def dbps : Db :=
  { tenants := [tenant0], sites := [site0], portalSessions := [ps0],
    nextPsId := 6, authEvents := [], guestIdentities := [],
    nextIdentityId := 0, vouchers := [], voucherBatches := [],
    redemptions := [], siteOidc := [], oidcProviders := [] }

/-- A concrete single-use voucher. -/
def voucher0 : VoucherRow :=
  { id := 1, batchId := 2, code := [65, 66], uses := 0, disabled := false }

/-- Its batch, unexpired with one use per code. -/
def batch0 : VoucherBatchRow :=
  { id := 2, siteId := 0, expiresAt := none, maxUsesPerCode := 1 }

/-- The store holding the voucher and its batch. -/
def dbv : Db :=
  { tenants := [tenant0], sites := [site0], portalSessions := [],
    nextPsId := 0, authEvents := [], guestIdentities := [],
    nextIdentityId := 0, vouchers := [voucher0],
    voucherBatches := [batch0], redemptions := [], siteOidc := [],
    oidcProviders := [] }

/-- Witness for C1: the lowercase spelling of the stored code redeems
the voucher, appending exactly the expected redemption row. -/
theorem claim_C1_witness :
    (redeem_voucher_run dbv 0 0 7 (some 5) [97, 98] macColonEx).1.vouchers =
        dbv.vouchers.map (fun w =>
          if w.id = voucher0.id then { w with uses := w.uses + 1 } else w) ∧
      (redeem_voucher_run dbv 0 0 7 (some 5) [97, 98] macColonEx).1.redemptions =
        dbv.redemptions ++
          [{ tenantId := 7, siteId := 0, voucherId := voucher0.id,
             portalSessionId := some 5, clientMac := macColonEx }] ∧
      (redeem_voucher_run dbv 0 0 7 (some 5) [97, 98] macColonEx).2 =
        .ok { tenantId := 7, siteId := 0, voucherId := voucher0.id,
              portalSessionId := some 5, clientMac := macColonEx } :=
  (claim_C1 dbv 0 0 7 (some 5) [97, 98] macColonEx macColonEx
      (by decide)).2.2.2.2.1 voucher0 batch0 (by decide) rfl rfl (by decide)

/-- Witness for C2: from the empty state, a dashed-lowercase then
colon-uppercase spelling of the same address share one session. -/
theorem claim_C2_witness :
    ∃ db1 r1 d1,
      create_or_reuse_session db0 emptyRedis 0 7 site0 macDashedEx none
          none none none none = some (db1, r1, d1) ∧
      create_or_reuse_session db1 r1 1 7 site0 macColonEx none none none
          none none = some (db1, r1, d1) ∧
      db1.portalSessions.countP
        (fun p => p.siteId == site0.id && p.clientMac == macColonEx) = 1 :=
  claim_C2 db0 emptyRedis 0 1 7 site0 macDashedEx macColonEx macColonEx
    none none none none none none none none none none none none
    (by decide) (by decide) rfl rfl rfl (by decide) rfl

/-- Witness for C4: the concrete start-verify-replay scenario. -/
theorem claim_C4_witness :
    ∃ r2,
      verify_code crypto0 (otpFresh crypto0 emptyRedis otpKey0 [49] 0) 10
          1 macColonEx [97] [49] = some (r2, true, none) ∧
      r2.otpStore otpKey0 = none ∧
      verify_code crypto0 r2 20 1 macColonEx [97] [49] =
        some (r2, false, some "OTP_EXPIRED") :=
  claim_C4 crypto0 emptyRedis 0 10 20 1 macColonEx [97] [49] otpKey0
    (otpFresh crypto0 emptyRedis otpKey0 [49] 0) (by decide)
    (start_challenge_eq crypto0 emptyRedis 0 1 macColonEx [97] [49]
      otpKey0 (by decide))
    (by decide)

/-- Witness for C5: five wrong codes then the correct one, concretely. -/
theorem claim_C5_witness :
    ∃ r1 r2 r3 r4 r5,
      verify_code crypto0 (otpFresh crypto0 emptyRedis otpKey0 [49] 0) 10
          1 macColonEx [97] [50] = some (r1, false, some "OTP_INVALID") ∧
      verify_code crypto0 r1 10 1 macColonEx [97] [50] =
        some (r2, false, some "OTP_INVALID") ∧
      verify_code crypto0 r2 10 1 macColonEx [97] [50] =
        some (r3, false, some "OTP_INVALID") ∧
      verify_code crypto0 r3 10 1 macColonEx [97] [50] =
        some (r4, false, some "OTP_INVALID") ∧
      verify_code crypto0 r4 10 1 macColonEx [97] [50] =
        some (r5, false, some "OTP_LOCKED") ∧
      r5.otpStore otpKey0 = none ∧
      verify_code crypto0 r5 20 1 macColonEx [97] [49] =
        some (r5, false, some "OTP_EXPIRED") :=
  claim_C5 crypto0 (otpFresh crypto0 emptyRedis otpKey0 [49] 0) 10 20 1
    macColonEx [97] otpKey0
    { codeHash := [49], attempts := 0, createdAt := 0 } 600
    [50] [50] [50] [50] [50] [49] (by decide) (by decide) rfl (by decide)
    (by decide) (by decide) (by decide) (by decide) (by decide)

/-- Witness for C7: a zero limit rejects the first request of the
window, whose counter carries the window+1 expiry. -/
theorem claim_C7_witness :
    (enforce_rate_limit emptyRedis 0 (limit_key_ip [] "voucher") 0 60).2 =
        some (429, "RATE_LIMITED") ∧
      (enforce_rate_limit emptyRedis 0 (limit_key_ip [] "voucher") 0
          60).1.rlStore (limit_key_ip [] "voucher", 0 / 60) =
        some (1, some (0 + 60 + 1)) :=
  ⟨(claim_C7 emptyRedis 0 (limit_key_ip [] "voucher") 0 60).2.2 rfl,
    (claim_C7 emptyRedis 0 (limit_key_ip [] "voucher") 0 60).2.1
      (by decide)⟩

/-- Witness for C8 (amended): the concrete wrong-code re-store. -/
theorem claim_C8_witness :
    ∃ r2,
      verify_code crypto0 (otpFresh crypto0 emptyRedis otpKey0 [49] 0) 100
          1 macColonEx [97] [50] = some (r2, false, some "OTP_INVALID") ∧
      r2.otpStore otpKey0 = some
        ({ codeHash := [49], attempts := 0 + 1, createdAt := 0 },
          100 + OTP_TTL_SECONDS) ∧
      (∀ k', k' ≠ otpKey0 →
        r2.otpStore k' =
          (otpFresh crypto0 emptyRedis otpKey0 [49] 0).otpStore k') :=
  claim_C8 crypto0 (otpFresh crypto0 emptyRedis otpKey0 [49] 0) 100 1
    macColonEx [97] [50] otpKey0
    { codeHash := [49], attempts := 0, createdAt := 0 } 600
    (by decide) (by decide) (by decide) (by decide) (by decide)

/-- The setting row of the C6 witness site. -/
def so0 : SiteOidcRow :=
  { siteId := 0, providerId := 3, enabled := true, allowedDomains := none }

/-- The C6 witness store: tenant, site, session, enabled provider. -/
def db1 : Db :=
  { tenants := [tenant0], sites := [site0], portalSessions := [ps0],
    nextPsId := 6, authEvents := [], guestIdentities := [],
    nextIdentityId := 0, vouchers := [], voucherBatches := [],
    redemptions := [], siteOidc := [so0], oidcProviders := [3] }

/-- The stored OIDC state of the C6 witness flow. -/
def stored0 : OidcStateData :=
  { state := [53, 46, 97], nonce := [], codeVerifier := [],
    providerId := 3 }

/-- The cache holding that state under the session id. -/
def r1oidc : RedisState :=
  { emptyRedis with oidcStore := upd emptyRedis.oidcStore 5 (stored0, 600) }

/-- The uuid parser of the witness: recognizes the decimal digit 5. -/
def parse0 : List Nat → Option Nat :=
  fun l => if l = [53] then some 5 else none

/-- The state after _mark_failed in the C6 witness. -/
def mf0 : Db × RedisState :=
  (mark_failed db1 r1oidc 0 site0 ps0 "OIDC_TOKEN_ERROR").getD (db1, r1oidc)

/-- Witness for C6 (amended): a failed token exchange redirects with the
error code and appends exactly one OIDC FAIL audit event. -/
theorem claim_C6_witness :
    oidc_callback db1 r1oidc 0 parse0 "t" "s" (some [53, 46, 97])
        (some [99]) none (.error "OIDC_TOKEN_ERROR") unifi0 =
      (mf0.1, mf0.2, .redirectError (some 5) "OIDC_TOKEN_ERROR") ∧
    mf0.1.authEvents = db1.authEvents ++
      [{ tenantId := site0.tenantId, siteId := site0.id,
         portalSessionId := some ps0.id, guestIdentityId := none,
         method := "OIDC", result := "FAIL",
         reason := some "OIDC_TOKEN_ERROR", unifiClientId := none }] :=
  (claim_C6 db1 r1oidc 0 parse0 "t" "s" (some [53, 46, 97]) (some [99])
      none (.error "OIDC_TOKEN_ERROR") unifi0 site0 rfl rfl
      rfl).2.2.2.2.2.1 5 stored0 (so0, 3) ps0 "OIDC_TOKEN_ERROR" mf0
    rfl rfl rfl rfl rfl rfl rfl rfl rfl

/-- The verify outcome of the C10 OTP witness (no stored challenge, so
verification fails expired). -/
def out0 : RedisState × Bool × Option String :=
  (verify_code crypto0
    (enforce_rate_limit
      (enforce_rate_limit emptyRedis 0 (limit_key_ip [] "otp_verify")
        OTP_VERIFY_RATE_LIMIT_PER_IP OTP_RATE_LIMIT_WINDOW_SECONDS).1
      0 (.macScope "otp_verify" 0 macColonEx)
      OTP_VERIFY_RATE_LIMIT_PER_MAC OTP_RATE_LIMIT_WINDOW_SECONDS).1
    0 0 macColonEx [97] [49]).getD (emptyRedis, false, none)

/-- The session state after the FAILED transition of the C10 voucher
witness. -/
def stv : Db × RedisState :=
  (set_status dbps
    (enforce_rate_limit
      (enforce_rate_limit emptyRedis 0 (limit_key_ip [] "voucher")
        VOUCHER_RATE_LIMIT_PER_IP VOUCHER_RATE_LIMIT_WINDOW_SECONDS).1
      0 (.macScope "voucher" 0 macColonEx)
      VOUCHER_RATE_LIMIT_PER_MAC VOUCHER_RATE_LIMIT_WINDOW_SECONDS).1
    0 0 macColonEx .FAILED).getD (dbps, emptyRedis)

/-- Witness for C10: concretely, a failed OTP verify leaves the session
rows untouched while appending the FAIL event, and a failed voucher
redemption goes through the FAILED transition before its FAIL event. -/
theorem claim_C10_witness :
    (otp_verify crypto0 dbps emptyRedis 0 "t" "s" (some 5) [97] [49] []
        unifi0 =
      (logAuthEvent dbps site0 ps0 "EMAIL_OTP" "FAIL"
          (some "OTP_EXPIRED") none none, out0.1,
        .err 400 "OTP_INVALID") ∧
      (logAuthEvent dbps site0 ps0 "EMAIL_OTP" "FAIL"
        (some "OTP_EXPIRED") none none).portalSessions =
          dbps.portalSessions ∧
      out0.1.portalCache = emptyRedis.portalCache) ∧
    voucher_auth dbps emptyRedis 0 "t" "s" (some 5) [99] [] unifi0 =
      (logAuthEvent stv.1 site0 ps0 "VOUCHER" "FAIL"
          (some "VOUCHER_NOT_FOUND") none none, stv.2,
        .err 409 "VOUCHER_INVALID") :=
  ⟨claim_C10.1 crypto0 dbps emptyRedis 0 "t" "s" (some 5) [97] [49] []
      unifi0 site0 ps0 (.macScope "otp_verify" 0 macColonEx) out0
      "OTP_EXPIRED" rfl rfl rfl rfl rfl rfl rfl rfl,
    claim_C10.2 dbps emptyRedis 0 "t" "s" (some 5) [99] [] unifi0 site0
      ps0 (.macScope "voucher" 0 macColonEx) "VOUCHER_NOT_FOUND" stv.1
      stv.2 rfl rfl rfl rfl rfl rfl (by decide) rfl⟩

end Portal
